import Mathlib

/-!
Verification development for the W5100 SPI ethernet driver stack
(`drv/w5100-spi`): the SPI frame codec (`w5100/spi_stream.rs`), the
per-socket buffer accessor (`w5100/socket.rs`), the TCP session state
machine (`tcp.rs`), and the IPC façade (`main.rs`).

Hardware interactions (register reads/writes, leased transfers, socket
commands) are modelled by explicit environments supplying each call's
outcome, and each operation returns its result together with the trace
of hardware effects it produced.
-/

namespace W5100Model

/-- Socket status codes, from `w5100/socket.rs` `enum Status`. -/
inductive Status
  | Closed
  | Init
  | Listen
  | Established
  | CloseWait
  | Udp
  | IpRaw
  | MacRaw
  | Pppoe
  | SynSent
  | SynRecv
  | FinWait
  | Closing
  | TimeWait
  | LastAck
  | ArpTcp
  | ArpUdp
  | ArpIcmp
  deriving DecidableEq, Repr

/-- The `#[repr(u8)]` discriminant of each status, from the source. -/
def Status.toU8 : Status → Nat
  | .Closed => 0x00
  | .Init => 0x13
  | .Listen => 0x14
  | .Established => 0x17
  | .CloseWait => 0x1c
  | .Udp => 0x22
  | .IpRaw => 0x32
  | .MacRaw => 0x42
  | .Pppoe => 0x5f
  | .SynSent => 0x15
  | .SynRecv => 0x16
  | .FinWait => 0x18
  | .Closing => 0x1a
  | .TimeWait => 0x1b
  | .LastAck => 0x1d
  | .ArpTcp => 0x11
  | .ArpUdp => 0x21
  | .ArpIcmp => 0x31

/-- Socket commands, from `w5100/socket.rs` `enum Command`. -/
inductive Command
  | Open
  | Listen
  | Connect
  | Disconnect
  | Close
  | Send
  | SendMac
  | SendKeep
  | Recv
  deriving DecidableEq, Repr

/-- Buffer partition configuration, from `w5100.rs` `enum SocketConfig`. -/
inductive SocketConfig
  | OneSocket8Kib
  | TwoSockets4KiB
  | FourSockets2KiB
  deriving DecidableEq, Repr

/-- Driver error type, from `main.rs` `enum W5100Error`. The payload of
`SpiError` (a lower-layer transport error) is abstracted as a `Nat`. -/
inductive W5100Error
  | ResetFailed
  | OpenFailed
  | ListenFailed
  | PeerClosed
  | BadSocketNumber
  | SpiError (inner : Nat)
  | BadSocketState (inner : Nat)
  | UnknownSocketStatus (inner : Nat)
  deriving DecidableEq, Repr

/-- `idol_runtime::RequestError<W5100Error>` as the driver uses it:
`fail` is `RequestError::Fail(ClientError::WentAway)` (client lease gone),
`runtime` wraps a driver error. -/
inductive ReqErr
  | fail
  | runtime (e : W5100Error)
  deriving DecidableEq, Repr

/-! ## Frame codec (`w5100/spi_stream.rs`) -/

/-- The 4-byte SPI command stream `SpiStream([u8; 4])`; each field is one
byte (a `Nat`, meaningful values `< 256`). -/
structure SpiStream where
  b0 : Nat
  b1 : Nat
  b2 : Nat
  b3 : Nat
  deriving DecidableEq, Repr

namespace SpiStream

def OP_WRITE : Nat := 0xf0
def OP_READ : Nat := 0x0f

/-- `SpiStream::write(addr, data)`: `[OP_WRITE, (addr >> 8) as u8, addr as u8, data]`. -/
def write (addr data : Nat) : SpiStream :=
  ⟨OP_WRITE, (addr >>> 8) % 256, addr % 256, data⟩

/-- `SpiStream::read(addr)`: `[OP_READ, (addr >> 8) as u8, addr as u8, 0]`. -/
def read (addr : Nat) : SpiStream :=
  ⟨OP_READ, (addr >>> 8) % 256, addr % 256, 0⟩

/-- `SpiStream::set_data`. -/
def set_data (s : SpiStream) (val : Nat) : SpiStream :=
  { s with b3 := val }

/-- `SpiStream::increment_addr`: wrapping-increments the low address byte,
carrying into the high byte; the source's `self.0[1] += 1` panics (debug
overflow check) when the high byte is already `0xff`, modelled as `none`. -/
def increment_addr (s : SpiStream) : Option SpiStream :=
  let b2 := (s.b2 + 1) % 256
  if b2 = 0 then
    if s.b1 + 1 < 256 then some { s with b1 := s.b1 + 1, b2 := b2 }
    else none
  else some { s with b2 := b2 }

/-- The address encoded in a frame (big-endian byte pair). -/
def addrOf (s : SpiStream) : Nat := s.b1 * 256 + s.b2

end SpiStream

/-! ## Socket view (`w5100/socket.rs` `Socket::new`) -/

/-- The computed per-socket descriptor, from `struct Socket`. -/
structure Socket where
  register_offset : Nat
  tx_addr : Nat
  tx_size : Nat
  rx_addr : Nat
  rx_size : Nat
  deriving DecidableEq, Repr

/-- Sockets supported by each partition mode (the `assert!` bounds in
`Socket::new`). -/
def socketCount : SocketConfig → Nat
  | .OneSocket8Kib => 1
  | .TwoSockets4KiB => 2
  | .FourSockets2KiB => 4

/-- Per-socket buffer size of each partition mode, from `Socket::new`. -/
def bufSizeOf : SocketConfig → Nat
  | .OneSocket8Kib => 8192
  | .TwoSockets4KiB => 4096
  | .FourSockets2KiB => 2048

/-- `Socket::new(device, index)`: asserts the index is within the partition
mode's socket count (`none` models the assertion firing), then computes the
register offset and TX/RX buffer bases. -/
def Socket.new (cfg : SocketConfig) (index : Nat) : Option Socket :=
  let buf_size? : Option Nat :=
    match cfg with
    | .OneSocket8Kib => if index < 1 then some 8192 else none
    | .TwoSockets4KiB => if index < 2 then some 4096 else none
    | .FourSockets2KiB => if index < 4 then some 2048 else none
  buf_size?.map fun buf_size =>
    { register_offset := index <<< 8
      tx_addr := index * buf_size + 0x4000
      tx_size := buf_size
      rx_addr := index * buf_size + 0x6000
      rx_size := buf_size }

/-! ## Buffer accessor (`w5100/socket.rs` `Socket::recv` / `Socket::send`)

Each operation consults the hardware/lease through an `XferEnv` supplying
the outcome of every call it may make, and records the hardware effects it
performs: leased range transfers (`read_raw_lease`/`write_raw_lease`),
the ring-pointer register write, and the final socket command. -/

/-- Hardware effects of a `recv`/`send` call. `xfer addr len pos` is a call
to `read_raw_lease`/`write_raw_lease` for `len` bytes of chip memory at
`addr`, at position `pos` within the client lease; `writePtr v` is the
write of the RX-read / TX-write pointer register; `command c` is a socket
command write. -/
inductive XferEvent
  | xfer (addr len pos : Nat)
  | writePtr (val : Nat)
  | command (c : Command)
  deriving DecidableEq, Repr

/-- Environment supplying the outcomes of the hardware calls made by
`recv`/`send`: the size register read (`RxRsr`/`TxFsr`), the pointer
register read (`RxRd`/`TxWr`), each leased range transfer (keyed by its
`addr`, `len`, `pos` arguments; `none` = success), the pointer register
write, and the socket command write. -/
structure XferEnv where
  sizeReg : Except W5100Error Nat
  ptrReg : Except W5100Error Nat
  xfer : Nat → Nat → Nat → Option ReqErr
  ptrWrite : Option W5100Error
  cmd : Option W5100Error

/-- `Socket::recv(out)`: reads `RxRsr`, bounds the transfer by the lease
length `outLen`, returns `Ok(0)` if nothing to do; otherwise reads `RxRd`,
computes `offset = rd_pointer & (rx_size - 1)`, moves the data in one or
two leased sub-transfers depending on wraparound, then writes
`RxRd = rd_pointer.wrapping_add(nready)` and issues the `Recv` command. -/
def Socket.recv (s : Socket) (outLen : Nat) (env : XferEnv) :
    Except ReqErr Nat × List XferEvent :=
  match env.sizeReg with
  | .error e => (.error (.runtime e), [])
  | .ok rsr =>
    let nready := min outLen rsr
    if nready = 0 then (.ok 0, [])
    else
      match env.ptrReg with
      | .error e => (.error (.runtime e), [])
      | .ok rd_pointer =>
        let offset := rd_pointer &&& (s.rx_size - 1)
        let move : Option ReqErr × List XferEvent :=
          if s.rx_size < offset + nready then
            -- available data wraps; read to the end first, then from the beginning
            let to_end := s.rx_size - offset
            match env.xfer (s.rx_addr + offset) to_end 0 with
            | some err => (some err, [.xfer (s.rx_addr + offset) to_end 0])
            | none =>
              match env.xfer s.rx_addr (nready - to_end) to_end with
              | some err =>
                  (some err,
                   [.xfer (s.rx_addr + offset) to_end 0,
                    .xfer s.rx_addr (nready - to_end) to_end])
              | none =>
                  (none,
                   [.xfer (s.rx_addr + offset) to_end 0,
                    .xfer s.rx_addr (nready - to_end) to_end])
          else
            match env.xfer (s.rx_addr + offset) nready 0 with
            | some err => (some err, [.xfer (s.rx_addr + offset) nready 0])
            | none => (none, [.xfer (s.rx_addr + offset) nready 0])
        match move with
        | (some err, tr) => (.error err, tr)
        | (none, tr) =>
          -- update read pointer and inform device we consumed the data
          match env.ptrWrite with
          | some e =>
              (.error (.runtime e), tr ++ [.writePtr ((rd_pointer + nready) % 65536)])
          | none =>
            match env.cmd with
            | some e =>
                (.error (.runtime e),
                 tr ++ [.writePtr ((rd_pointer + nready) % 65536), .command .Recv])
            | none =>
                (.ok nready,
                 tr ++ [.writePtr ((rd_pointer + nready) % 65536), .command .Recv])

/-- `Socket::send(buf)`: reads `TxFsr`, bounds the transfer by the lease
length `bufLen`, returns `Ok(0)` if no free space; otherwise reads `TxWr`,
computes `offset = tx_pointer & (tx_size - 1)`, moves the data in one or
two leased sub-transfers depending on wraparound, then writes
`TxWr = tx_pointer.wrapping_add(tx_free)` and issues the `Send` command. -/
def Socket.send (s : Socket) (bufLen : Nat) (env : XferEnv) :
    Except ReqErr Nat × List XferEvent :=
  match env.sizeReg with
  | .error e => (.error (.runtime e), [])
  | .ok fsr =>
    let tx_free := min bufLen fsr
    if tx_free = 0 then (.ok 0, [])
    else
      match env.ptrReg with
      | .error e => (.error (.runtime e), [])
      | .ok tx_pointer =>
        let offset := tx_pointer &&& (s.tx_size - 1)
        let move : Option ReqErr × List XferEvent :=
          if s.tx_size < offset + tx_free then
            -- available space wraps; write to the end first, then to the beginning
            let to_end := s.tx_size - offset
            match env.xfer (s.tx_addr + offset) to_end 0 with
            | some err => (some err, [.xfer (s.tx_addr + offset) to_end 0])
            | none =>
              match env.xfer s.tx_addr (tx_free - to_end) to_end with
              | some err =>
                  (some err,
                   [.xfer (s.tx_addr + offset) to_end 0,
                    .xfer s.tx_addr (tx_free - to_end) to_end])
              | none =>
                  (none,
                   [.xfer (s.tx_addr + offset) to_end 0,
                    .xfer s.tx_addr (tx_free - to_end) to_end])
          else
            match env.xfer (s.tx_addr + offset) tx_free 0 with
            | some err => (some err, [.xfer (s.tx_addr + offset) tx_free 0])
            | none => (none, [.xfer (s.tx_addr + offset) tx_free 0])
        match move with
        | (some err, tr) => (.error err, tr)
        | (none, tr) =>
          -- update write pointer and inform device we inserted the data
          match env.ptrWrite with
          | some e =>
              (.error (.runtime e), tr ++ [.writePtr ((tx_pointer + tx_free) % 65536)])
          | none =>
            match env.cmd with
            | some e =>
                (.error (.runtime e),
                 tr ++ [.writePtr ((tx_pointer + tx_free) % 65536), .command .Send])
            | none =>
                (.ok tx_free,
                 tr ++ [.writePtr ((tx_pointer + tx_free) % 65536), .command .Send])

/-- The lengths of the leased sub-transfers in an effect trace. -/
def xferLens (tr : List XferEvent) : List Nat :=
  tr.filterMap fun e =>
    match e with
    | .xfer _ l _ => some l
    | _ => none

/-! ## TCP session state machine (`tcp.rs`)

Each operation returns its result paired with the list of socket commands
it issued (in order). `fail(error)` (`TcpSocket::fail`) calls
`close_raw()` — issuing the `Close` command — and returns `Err(error)`,
except that if the `Close` command write itself fails, that failure is
returned instead (`self.close_raw()?`). -/

/-- The error returned by `TcpSocket::fail(error)`: the `Close` write's own
error when it fails, otherwise the given error. -/
def failResult (error : W5100Error) (cmdClose : Option W5100Error) : W5100Error :=
  match cmdClose with
  | some e => e
  | none => error

/-- Environment for `TcpSocket::open`: outcomes of the `set_mode`,
`set_source_port` and `Open`-command register writes, and the status read. -/
structure OpenEnv where
  setMode : Option W5100Error
  setPort : Option W5100Error
  cmdOpen : Option W5100Error
  status : Except W5100Error Status

/-- `TcpSocket::open`: sets TCP mode and the source port, issues `Open`,
and confirms the status reads `Init`; any other status is `OpenFailed`. -/
def TcpSocket.openTcp (env : OpenEnv) : Except W5100Error Unit × List Command :=
  match env.setMode with
  | some e => (.error e, [])
  | none =>
    match env.setPort with
    | some e => (.error e, [])
    | none =>
      match env.cmdOpen with
      | some e => (.error e, [.Open])
      | none =>
        match env.status with
        | .error e => (.error e, [.Open])
        | .ok .Init => (.ok (), [.Open])
        | .ok _ => (.error .OpenFailed, [.Open])

/-- Environment for `TcpSocket::listen`: outcomes of the `Listen` command
write, the status read, and the `Close` command write of a `fail()` path. -/
structure ListenEnv where
  cmdListen : Option W5100Error
  status : Except W5100Error Status
  cmdClose : Option W5100Error

/-- `TcpSocket::listen`: issues the `Listen` command and confirms the
status reads `Listen`; any other status goes through
`fail(ListenFailed)`, which issues `Close` before returning the error. -/
def TcpSocket.listen (env : ListenEnv) : Except W5100Error Unit × List Command :=
  match env.cmdListen with
  | some e => (.error e, [.Listen])
  | none =>
    match env.status with
    | .error e => (.error e, [.Listen])
    | .ok .Listen => (.ok (), [.Listen])
    | .ok _ =>
      (.error (failResult .ListenFailed env.cmdClose), [.Listen, .Close])

/-- Environment for `TcpSocket::accept`: the status reading of each poll
iteration, and the `Close` command write of a `fail()` path. -/
structure AcceptEnv where
  status : Nat → Except W5100Error Status
  cmdClose : Option W5100Error

/-- The polling loop of `TcpSocket::accept`, iteration counter `i`, with
explicit fuel; `none` models the loop still running after `fuel`
iterations. Each iteration reads the status: `Listen` sleeps and retries,
`Established` succeeds, a status read error propagates, and any other
status goes through `fail(BadSocketState(status))`. -/
def acceptLoop (env : AcceptEnv) :
    Nat → Nat → Option (Except W5100Error Unit × List Command)
  | 0, _ => none
  | fuel + 1, i =>
    match env.status i with
    | .error e => some (.error e, [])
    | .ok .Listen => acceptLoop env fuel (i + 1)
    | .ok .Established => some (.ok (), [])
    | .ok st =>
        some (.error (failResult (.BadSocketState st.toU8) env.cmdClose), [.Close])

/-- `TcpSocket::accept`, started at iteration 0. -/
def TcpSocket.accept (env : AcceptEnv) (fuel : Nat) :
    Option (Except W5100Error Unit × List Command) :=
  acceptLoop env fuel 0

/-- The accept polling loop terminates for some amount of fuel. -/
def acceptTerminates (env : AcceptEnv) : Prop :=
  ∃ fuel, (TcpSocket.accept env fuel).isSome

/-- Environment for `TcpSocket::write`: the status read, the result of the
inner `Socket::send`, and the `Close` command write of a `fail()` path. -/
structure WriteEnv where
  status : Except W5100Error Status
  send : Except ReqErr Nat
  cmdClose : Option W5100Error

/-- `TcpSocket::write`: re-checks the status (`Established` proceeds,
`CloseWait` is `fail(PeerClosed)`, anything else is
`fail(BadSocketState)`), then performs `Socket::send`; a
`RequestError::Fail` (client went away) propagates untouched, a
`RequestError::Runtime` error goes through `fail()`. -/
def TcpSocket.write (env : WriteEnv) : Except ReqErr Nat × List Command :=
  match env.status with
  | .error e => (.error (.runtime e), [])
  | .ok .Established =>
    match env.send with
    | .ok n => (.ok n, [])
    | .error .fail => (.error .fail, [])
    | .error (.runtime e) =>
        (.error (.runtime (failResult e env.cmdClose)), [.Close])
  | .ok .CloseWait =>
      (.error (.runtime (failResult .PeerClosed env.cmdClose)), [.Close])
  | .ok st =>
      (.error (.runtime (failResult (.BadSocketState st.toU8) env.cmdClose)), [.Close])

/-- Environment for `TcpSocket::read`: the status reading and the inner
`Socket::recv` result of each loop iteration, and the `Close` command
write of a `fail()` path. -/
structure ReadEnv where
  status : Nat → Except W5100Error Status
  recv : Nat → Except ReqErr Nat
  cmdClose : Option W5100Error

/-- The loop of `TcpSocket::read`, with explicit fuel (`none` = still
looping). Each iteration re-checks the status: `Established` proceeds to
`Socket::recv`, `CloseWait` returns `Ok(0)` (graceful EOF), anything else
is `fail(BadSocketState)`. A recv of 0 bytes sleeps and retries; a
`RequestError::Fail` propagates untouched; a `RequestError::Runtime`
error goes through `fail()`. -/
def readLoop (env : ReadEnv) :
    Nat → Nat → Option (Except ReqErr Nat × List Command)
  | 0, _ => none
  | fuel + 1, i =>
    match env.status i with
    | .error e => some (.error (.runtime e), [])
    | .ok .Established =>
      match env.recv i with
      | .ok 0 => readLoop env fuel (i + 1)
      | .ok n => some (.ok n, [])
      | .error .fail => some (.error .fail, [])
      | .error (.runtime e) =>
          some (.error (.runtime (failResult e env.cmdClose)), [.Close])
    | .ok .CloseWait => some (.ok 0, [])
    | .ok st =>
        some (.error (.runtime (failResult (.BadSocketState st.toU8) env.cmdClose)), [.Close])

/-- `TcpSocket::read`, started at iteration 0. -/
def TcpSocket.read (env : ReadEnv) (fuel : Nat) :
    Option (Except ReqErr Nat × List Command) :=
  readLoop env fuel 0

/-- Errors a raw register access can produce by itself: a transport
(`SpiError`) failure, or an undecodable status byte from `status()`. -/
def isRegError : W5100Error → Bool
  | .SpiError _ => true
  | .UnknownSocketStatus _ => true
  | _ => false

/-- Errors originated by a `fail(...)` call site of the TCP state machine:
`ListenFailed`, `PeerClosed`, and `BadSocketState`. -/
def isFailErr : W5100Error → Bool
  | .ListenFailed => true
  | .PeerClosed => true
  | .BadSocketState _ => true
  | _ => false

/-! ## IPC façade (`main.rs` `ServerImpl`) -/

/-- The stored session state: `SocketState::Open` holds a
`TcpSocket<Init>`, `SocketState::Established` a `TcpSocket<Established>`.
The typestate value itself carries no data relevant here. -/
inductive SessState
  | Open
  | Established
  deriving DecidableEq, Repr

/-- `ServerImpl`'s mutable state: `socket: Option<(TaskId, SocketState)>`.
The task id is abstracted as a `Nat`. -/
structure Server where
  socket : Option (Nat × SessState)
  deriving DecidableEq, Repr

/-- Environment for closing a session: outcomes of the `Disconnect` and
`Close` command writes. -/
structure CloseEnv where
  cmdDisconnect : Option W5100Error
  cmdClose : Option W5100Error

/-- `SocketState::close`: an `Open` session runs `close_raw()` (just the
`Close` command); an `Established` session runs `TcpSocket::close`, which
issues `Disconnect` and then unconditionally `close_raw()`. -/
def SessState.closeSess (st : SessState) (env : CloseEnv) :
    Except W5100Error Unit × List Command :=
  match st with
  | .Open =>
    match env.cmdClose with
    | some e => (.error e, [.Close])
    | none => (.ok (), [.Close])
  | .Established =>
    match env.cmdDisconnect with
    | some e => (.error e, [.Disconnect])
    | none =>
      match env.cmdClose with
      | some e => (.error e, [.Disconnect, .Close])
      | none => (.ok (), [.Disconnect, .Close])

/-- `ServerImpl::close`: `take()`s the stored session (leaving `None`)
and closes it; with no session stored it succeeds with no hardware
effect. -/
def Server.closeImpl (srv : Server) (env : CloseEnv) :
    Except W5100Error Unit × Server × List Command :=
  match srv.socket with
  | some (_, st) =>
    match st.closeSess env with
    | (r, tr) => (r, { socket := none }, tr)
  | none => (.ok (), srv, [])

/-- `ServerImpl::tcp_open`: rejected with `BadSocketState` carrying the
current session's status code if a session already exists (in any state);
otherwise runs `TcpSocket::open` on socket index 0 and stores the new
`Open` session under the calling client. -/
def Server.tcp_open (srv : Server) (sender : Nat) (env : OpenEnv) :
    Except ReqErr Nat × Server × List Command :=
  match srv.socket with
  | some (_, .Open) =>
      (.error (.runtime (.BadSocketState Status.Init.toU8)), srv, [])
  | some (_, .Established) =>
      (.error (.runtime (.BadSocketState Status.Established.toU8)), srv, [])
  | none =>
    match TcpSocket.openTcp env with
    | (.ok _, tr) => (.ok 0, { socket := some (sender, .Open) }, tr)
    | (.error e, tr) => (.error (.runtime e), srv, tr)

/-- `ServerImpl::tcp_close`: rejects any socket index other than 0 with
`BadSocketNumber`; otherwise runs `ServerImpl::close`. -/
def Server.tcp_close (srv : Server) (sock : Nat) (env : CloseEnv) :
    Except ReqErr Unit × Server × List Command :=
  if sock ≠ 0 then (.error (.runtime .BadSocketNumber), srv, [])
  else
    match srv.closeImpl env with
    | (.ok _, srv2, tr) => (.ok (), srv2, tr)
    | (.error e, srv2, tr) => (.error (.runtime e), srv2, tr)

/-- `ServerImpl::tcp_read`: rejects a socket index other than 0, requires
an `Established` session (`BadSocketState(Closed)` with no session,
`BadSocketState(Init)` with an unaccepted one), then delegates to
`TcpSocket::read`. The server state is not modified. -/
def Server.tcp_read (srv : Server) (sock : Nat) (env : ReadEnv) (fuel : Nat) :
    Option (Except ReqErr Nat × List Command) :=
  if sock ≠ 0 then some (.error (.runtime .BadSocketNumber), [])
  else
    match srv.socket with
    | some (_, .Established) => TcpSocket.read env fuel
    | none => some (.error (.runtime (.BadSocketState Status.Closed.toU8)), [])
    | some (_, .Open) =>
        some (.error (.runtime (.BadSocketState Status.Init.toU8)), [])

/-- `ServerImpl::tcp_write`: rejects a socket index other than 0, requires
an `Established` session, then delegates to `TcpSocket::write`. The
server state is not modified. -/
def Server.tcp_write (srv : Server) (sock : Nat) (env : WriteEnv) :
    Except ReqErr Nat × List Command :=
  if sock ≠ 0 then (.error (.runtime .BadSocketNumber), [])
  else
    match srv.socket with
    | some (_, .Established) => TcpSocket.write env
    | none => (.error (.runtime (.BadSocketState Status.Closed.toU8)), [])
    | some (_, .Open) => (.error (.runtime (.BadSocketState Status.Init.toU8)), [])

/-- Session status code reported by `tcp_open` for an existing session:
`Init` for an open-but-unaccepted session, `Established` for a connected
one (`main.rs` `tcp_open`). -/
def sessStatusCode : SessState → Nat
  | .Open => Status.Init.toU8
  | .Established => Status.Established.toU8

/-- An accept environment whose status register reads `Listen` forever. -/
def listenForeverEnv : AcceptEnv :=
  { status := fun _ => .ok .Listen, cmdClose := none }

/-- A listen environment whose `Listen` command write fails with a
transport error. -/
def listenCmdFailEnv : ListenEnv :=
  { cmdListen := some (.SpiError 0), status := .ok .Listen, cmdClose := none }

end W5100Model

namespace W5100Model

/-! ## Theorems -/

/-- C9: for every partition mode and every socket index valid for that
mode, `Socket::new` succeeds (the construction assertion holds) and
computes `tx_addr = index * buf_size + 0x4000`,
`rx_addr = index * buf_size + 0x6000` with the mode's buffer size; in
particular socket 0's bases are `0x4000`/`0x6000`. -/
theorem c9_socket_view_addresses (cfg : SocketConfig) (index : Nat)
    (h : index < socketCount cfg) :
    ∃ s, Socket.new cfg index = some s ∧
      s.tx_addr = index * bufSizeOf cfg + 0x4000 ∧
      s.rx_addr = index * bufSizeOf cfg + 0x6000 ∧
      s.tx_size = bufSizeOf cfg ∧
      s.rx_size = bufSizeOf cfg ∧
      s.register_offset = index <<< 8 ∧
      (index = 0 → s.tx_addr = 0x4000 ∧ s.rx_addr = 0x6000) := by
  cases cfg <;> simp only [socketCount] at h <;> interval_cases index <;>
    refine ⟨_, rfl, rfl, rfl, rfl, rfl, rfl, fun hh => ?_⟩ <;>
    first
      | exact ⟨rfl, rfl⟩
      | omega

/-- C9 witness: socket 3 in the four-socket mode. -/
theorem c9_socket_view_addresses_witness :
    3 < socketCount .FourSockets2KiB ∧
    ∃ s, Socket.new .FourSockets2KiB 3 = some s ∧
      s.tx_addr = 3 * bufSizeOf .FourSockets2KiB + 0x4000 ∧
      s.rx_addr = 3 * bufSizeOf .FourSockets2KiB + 0x6000 ∧
      s.tx_size = bufSizeOf .FourSockets2KiB ∧
      s.rx_size = bufSizeOf .FourSockets2KiB ∧
      s.register_offset = 3 <<< 8 ∧
      (3 = 0 → s.tx_addr = 0x4000 ∧ s.rx_addr = 0x6000) := by
  refine ⟨by decide, ?_⟩
  obtain ⟨s, hs⟩ := c9_socket_view_addresses .FourSockets2KiB 3 (by decide)
  exact ⟨s, hs⟩

/-- C10: for every 16-bit address `A` and byte `D`, the frame codec
produces the write frame `[0xF0, A >> 8, A & 0xFF, D]` and the read frame
`[0x0F, A >> 8, A & 0xFF, 0]`; and for every well-formed frame whose
encoded address is below `0xFFFF`, `increment_addr` yields the frame
encoding the successor address, preserving opcode and data bytes. -/
theorem c10_frame_codec (addr data : Nat) (s : SpiStream)
    (haddr : addr < 65536) (hb1 : s.b1 < 256) (hb2 : s.b2 < 256)
    (hlt : s.addrOf < 0xffff) :
    SpiStream.write addr data = ⟨0xf0, addr >>> 8, addr % 256, data⟩ ∧
    SpiStream.read addr = ⟨0x0f, addr >>> 8, addr % 256, 0⟩ ∧
    ∃ s2, s.increment_addr = some s2 ∧ s2.addrOf = s.addrOf + 1 ∧
      s2.b0 = s.b0 ∧ s2.b3 = s.b3 ∧ s2.b1 < 256 ∧ s2.b2 < 256 := by
  have hsh : addr >>> 8 < 256 := by
    rw [Nat.shiftRight_eq_div_pow]
    omega
  have hmod : (addr >>> 8) % 256 = addr >>> 8 := Nat.mod_eq_of_lt hsh
  refine ⟨by simp [SpiStream.write, SpiStream.OP_WRITE, hmod],
    by simp [SpiStream.read, SpiStream.OP_READ, hmod], ?_⟩
  rw [SpiStream.addrOf] at hlt
  by_cases hc : s.b2 = 255
  · have hb1lt : s.b1 + 1 < 256 := by omega
    refine ⟨⟨s.b0, s.b1 + 1, 0, s.b3⟩, ?_, ?_, rfl, rfl, hb1lt,
      show (0 : Nat) < 256 by decide⟩
    · simp [SpiStream.increment_addr, hc, hb1lt]
    · simp only [SpiStream.addrOf]
      omega
  · have h2 : (s.b2 + 1) % 256 = s.b2 + 1 := Nat.mod_eq_of_lt (by omega)
    refine ⟨⟨s.b0, s.b1, s.b2 + 1, s.b3⟩, ?_, ?_, rfl, rfl, hb1,
      show s.b2 + 1 < 256 by omega⟩
    · simp [SpiStream.increment_addr, h2]
    · simp only [SpiStream.addrOf]
      omega

/-- C10 witness: address `0x12ff`, data `0x55`, and a frame encoding
`0x34ff` (low byte carry into the high byte). -/
theorem c10_frame_codec_witness :
    SpiStream.write 0x12ff 0x55 = ⟨0xf0, 0x12ff >>> 8, 0x12ff % 256, 0x55⟩ ∧
    SpiStream.read 0x12ff = ⟨0x0f, 0x12ff >>> 8, 0x12ff % 256, 0⟩ ∧
    ∃ s2, SpiStream.increment_addr ⟨0xf0, 0x34, 0xff, 0x55⟩ = some s2 ∧
      s2.addrOf = SpiStream.addrOf ⟨0xf0, 0x34, 0xff, 0x55⟩ + 1 ∧
      s2.b0 = 0xf0 ∧ s2.b3 = 0x55 ∧ s2.b1 < 256 ∧ s2.b2 < 256 :=
  c10_frame_codec 0x12ff 0x55 ⟨0xf0, 0x34, 0xff, 0x55⟩
    (by decide) (by decide) (by decide) (by decide)

/-- C7: `tcp_open` while a session already exists (in any state) fails
with `BadSocketState` carrying the current session's status code (`Init`
for an unaccepted session, `Established` for a connected one), leaves the
stored session — owner and state — unchanged, and issues no hardware
command; the result does not depend on the hardware environment at all. -/
theorem c7_open_conflict (srv : Server) (client sender : Nat)
    (st : SessState) (env : OpenEnv) (h : srv.socket = some (client, st)) :
    Server.tcp_open srv sender env =
      (.error (.runtime (.BadSocketState (sessStatusCode st))), srv, []) := by
  cases st <;> simp [Server.tcp_open, h, sessStatusCode]

/-- C7 witness: an `Established` session owned by client 7 rejects a new
open from client 9 with `BadSocketState(0x17)` and is left untouched. -/
theorem c7_open_conflict_witness :
    Server.tcp_open ⟨some (7, .Established)⟩ 9
        ⟨none, none, none, .ok .Init⟩ =
      (.error (.runtime (.BadSocketState (sessStatusCode .Established))),
       ⟨some (7, .Established)⟩, []) :=
  c7_open_conflict ⟨some (7, .Established)⟩ 7 9 .Established
    ⟨none, none, none, .ok .Init⟩ rfl

/-- C8: `tcp_close` is idempotent at the façade: with socket index 0 and
no stored session it succeeds with no hardware command and an unchanged
server; a second `tcp_close` immediately after a successful one therefore
also succeeds; and any non-zero socket index is rejected with
`BadSocketNumber` (no state change, no hardware command). -/
theorem c8_close_idempotent (srv srv2 : Server) (i : Nat)
    (env env2 : CloseEnv) (tr : List Command) :
    (srv.socket = none → Server.tcp_close srv 0 env = (.ok (), srv, [])) ∧
    (Server.tcp_close srv 0 env = (.ok (), srv2, tr) →
       Server.tcp_close srv2 0 env2 = (.ok (), srv2, [])) ∧
    (i ≠ 0 →
       Server.tcp_close srv i env = (.error (.runtime .BadSocketNumber), srv, [])) := by
  refine ⟨?_, ?_, ?_⟩
  · intro h
    simp [Server.tcp_close, Server.closeImpl, h]
  · intro h
    have h2 : srv2.socket = none := by
      rcases hs : srv.socket with _ | ⟨c, st⟩
      · simp [Server.tcp_close, Server.closeImpl, hs] at h
        rw [← h.1, hs]
      · simp only [Server.tcp_close, if_neg (by omega : ¬(0 : Nat) ≠ 0),
          Server.closeImpl, hs] at h
        rcases hr : st.closeSess env with ⟨r, tr'⟩
        rw [hr] at h
        rcases r with e | u
        · simp at h
        · simp at h
          rw [← h.1]
    simp [Server.tcp_close, Server.closeImpl, h2]
  · intro h
    simp [Server.tcp_close, h]

/-- C8 witness: closing with no stored session succeeds unchanged (twice
in a row, using the first success to justify the second); socket index 2
is rejected with `BadSocketNumber`. -/
theorem c8_close_idempotent_witness :
    (Server.tcp_close ⟨none⟩ 0 ⟨none, none⟩ = (.ok (), ⟨none⟩, [])) ∧
    (Server.tcp_close ⟨none⟩ 0 ⟨none, none⟩ = (.ok (), ⟨none⟩, [])) ∧
    (Server.tcp_close ⟨some (7, .Established)⟩ 2 ⟨none, none⟩ =
       (.error (.runtime .BadSocketNumber), ⟨some (7, .Established)⟩, [])) := by
  have h := c8_close_idempotent ⟨none⟩ ⟨none⟩ 2 ⟨none, none⟩ ⟨none, none⟩ []
  have h2 := c8_close_idempotent ⟨some (7, .Established)⟩ ⟨none⟩ 2
      ⟨none, none⟩ ⟨none, none⟩ []
  exact ⟨h.1 rfl, h.2.1 (h.1 rfl), h2.2.2 (by omega)⟩

/-- Stepping the accept loop past `j` consecutive `Listen` readings
consumes `j` units of fuel and advances the iteration counter by `j`. -/
lemma acceptLoop_skip (env : AcceptEnv) :
    ∀ (j i fuel : Nat), (∀ d, d < j → env.status (i + d) = .ok .Listen) →
      acceptLoop env (fuel + j) i = acceptLoop env fuel (i + j) := by
  intro j
  induction j with
  | zero => intro i fuel _; rfl
  | succ n ih =>
    intro i fuel hd
    have h0 : env.status i = .ok .Listen := by simpa using hd 0 (by omega)
    have hstep : acceptLoop env (fuel + (n + 1)) i = acceptLoop env (fuel + n) (i + 1) := by
      show acceptLoop env ((fuel + n) + 1) i = _
      simp [acceptLoop, h0]
    rw [hstep, ih (i + 1) fuel (fun d hdn => by
      have := hd (d + 1) (by omega)
      simpa [Nat.add_assoc, Nat.add_comm 1 d] using this)]
    congr 1
    omega

/-- The accept loop never terminates when every status reading is
`Listen`. -/
lemma acceptLoop_listenForever (fuel i : Nat) :
    acceptLoop listenForeverEnv fuel i = none := by
  induction fuel generalizing i with
  | zero => rfl
  | succ n ih => simpa [acceptLoop, listenForeverEnv] using ih (i + 1)

/-- C4 counterexample: the claim that the accept polling loop terminates
after a bounded number of iterations for every sequence of status
readings is false — with a status register that reads `Listen` forever
(the concrete environment `listenForeverEnv`), the loop never
terminates, for any amount of fuel. -/
theorem c4_counterexample : ¬ acceptTerminates listenForeverEnv := by
  rintro ⟨fuel, h⟩
  rw [TcpSocket.accept, acceptLoop_listenForever] at h
  simp at h

/-- C4 (amended): `accept()` polls the socket status in an unbounded
sleep-loop while the status reads `Listen`; it transitions to
`Established` the moment the status reads `Established`, and any other
observed status is an unexpected-state fault that forces a hardware
`Close` and returns the fault; the loop terminates at the first
non-`Listen` reading (or status read error) but runs forever — consuming
any amount of fuel — while the status keeps reading `Listen`. -/
theorem c4_accept_poll_loop (env : AcceptEnv) (k : Nat)
    (hk : ∀ i, i < k → env.status i = .ok .Listen) :
    (∀ fuel, fuel ≤ k → TcpSocket.accept env fuel = none) ∧
    (env.status k = .ok .Established →
       TcpSocket.accept env (k + 1) = some (.ok (), [])) ∧
    (∀ st, st ≠ .Listen → st ≠ .Established → env.status k = .ok st →
       TcpSocket.accept env (k + 1) =
         some (.error (failResult (.BadSocketState st.toU8) env.cmdClose),
               [.Close])) ∧
    (∀ e, env.status k = .error e →
       TcpSocket.accept env (k + 1) = some (.error e, [])) := by
  have hstep : TcpSocket.accept env (k + 1) = acceptLoop env 1 k := by
    have h := acceptLoop_skip env k 0 1 (fun d hd => by simpa using hk d hd)
    rw [TcpSocket.accept, show k + 1 = 1 + k by omega]
    simpa using h
  refine ⟨?_, ?_, ?_, ?_⟩
  · intro fuel hle
    rw [TcpSocket.accept]
    have : acceptLoop env (0 + fuel) 0 = acceptLoop env 0 (0 + fuel) :=
      acceptLoop_skip env fuel 0 0 (fun d hd => by simpa using hk d (by omega))
    simpa using this
  · intro hE
    rw [hstep]
    simp [acceptLoop, hE]
  · intro st h1 h2 hst
    rw [hstep]
    cases st <;> simp_all [acceptLoop]
  · intro e he
    rw [hstep]
    simp [acceptLoop, he]

/-- C4 witness: two `Listen` readings followed by `Established`: the loop
is still running after 2 iterations and succeeds with fuel 3. -/
theorem c4_accept_poll_loop_witness :
    (TcpSocket.accept
        ⟨fun i => match i with
                  | 0 => .ok .Listen
                  | 1 => .ok .Listen
                  | _ => .ok .Established, none⟩ 2 = none) ∧
    (TcpSocket.accept
        ⟨fun i => match i with
                  | 0 => .ok .Listen
                  | 1 => .ok .Listen
                  | _ => .ok .Established, none⟩ 3 = some (.ok (), [])) := by
  have hk : ∀ i, i < 2 →
      (⟨fun i => match i with
                 | 0 => .ok .Listen
                 | 1 => .ok .Listen
                 | _ => .ok .Established, none⟩ : AcceptEnv).status i = .ok .Listen := by
    intro i hi
    interval_cases i <;> rfl
  have h := c4_accept_poll_loop _ 2 hk
  exact ⟨h.1 2 (by omega), h.2.1 rfl⟩

/-- A raw register-access error is never one of the `fail(...)`-originated
errors. -/
lemma regError_not_failErr (e : W5100Error) (h : isRegError e) :
    isFailErr e = false := by
  cases e <;> simp_all [isRegError, isFailErr]

/-- In the accept loop, any returned `fail`-class error comes with the
`Close` command in the trace, provided status read errors are raw
register-access errors. -/
lemma acceptLoop_failErr_close (env : AcceptEnv)
    (ha : ∀ i e, env.status i = .error e → isRegError e) :
    ∀ fuel i r tr e, acceptLoop env fuel i = some (r, tr) →
      r = .error e → isFailErr e → Command.Close ∈ tr := by
  intro fuel
  induction fuel with
  | zero => intro i r tr e h; simp [acceptLoop] at h
  | succ n ih =>
    intro i r tr e h hr hf
    rw [acceptLoop] at h
    rcases hst : env.status i with e' | st
    · rw [hst] at h
      simp [hr] at h
      obtain ⟨h1, -⟩ := h
      have hreg := ha i e' hst
      rw [h1] at hreg
      simp [regError_not_failErr e hreg] at hf
    · rw [hst] at h
      cases st
      case Listen => exact ih _ _ _ _ h hr hf
      case Established => simp [hr] at h
      all_goals (simp at h; rw [← h.2]; simp)

/-- In the read loop, any returned `fail`-class runtime error comes with
the `Close` command in the trace, provided status read errors are raw
register-access errors. -/
lemma readLoop_failErr_close (env : ReadEnv)
    (ha : ∀ i e, env.status i = .error e → isRegError e) :
    ∀ fuel i r tr e, readLoop env fuel i = some (r, tr) →
      r = .error (.runtime e) → isFailErr e → Command.Close ∈ tr := by
  intro fuel
  induction fuel with
  | zero => intro i r tr e h; simp [readLoop] at h
  | succ n ih =>
    intro i r tr e h hr hf
    rw [readLoop] at h
    rcases hst : env.status i with e' | st
    · rw [hst] at h
      simp [hr] at h
      obtain ⟨h1, -⟩ := h
      have hreg := ha i e' hst
      rw [h1] at hreg
      simp [regError_not_failErr e hreg] at hf
    · rw [hst] at h
      cases st
      case Established =>
        rcases hrc : env.recv i with er | n'
        · rw [hrc] at h
          rcases er with _ | e2
          · simp [hr] at h
          · simp at h
            rw [← h.2]
            simp
        · rw [hrc] at h
          rcases n' with _ | m
          · exact ih _ _ _ _ h hr hf
          · simp [hr] at h
      case CloseWait => simp [hr] at h
      all_goals (simp at h; rw [← h.2]; simp)

/-- The accept loop issues `Close` only on failure paths: a `Close` in
the trace implies the returned result is an error. -/
lemma acceptLoop_close_only_error (env : AcceptEnv) :
    ∀ fuel i r tr, acceptLoop env fuel i = some (r, tr) →
      Command.Close ∈ tr → ∃ e, r = .error e := by
  intro fuel
  induction fuel with
  | zero => intro i r tr h; simp [acceptLoop] at h
  | succ n ih =>
    intro i r tr h hmem
    rw [acceptLoop] at h
    rcases hst : env.status i with e' | st
    · rw [hst] at h
      simp at h
      obtain ⟨h1, h2⟩ := h
      first
        | exact ⟨_, h1.symm⟩
        | exact ⟨_, h1⟩
    · rw [hst] at h
      cases st
      case Listen => exact ih _ _ _ h hmem
      case Established =>
        simp at h
        obtain ⟨h1, h2⟩ := h
        subst h2
        simp at hmem
      all_goals
        simp at h
        obtain ⟨h1, h2⟩ := h
        first
          | exact ⟨_, h1.symm⟩
          | exact ⟨_, h1⟩

/-- The read loop issues `Close` only on failure paths: a `Close` in the
trace implies the returned result is an error. -/
lemma readLoop_close_only_error (env : ReadEnv) :
    ∀ fuel i r tr, readLoop env fuel i = some (r, tr) →
      Command.Close ∈ tr → ∃ e, r = .error e := by
  intro fuel
  induction fuel with
  | zero => intro i r tr h; simp [readLoop] at h
  | succ n ih =>
    intro i r tr h hmem
    rw [readLoop] at h
    rcases hst : env.status i with e' | st
    · rw [hst] at h
      simp at h
      obtain ⟨h1, h2⟩ := h
      first
        | exact ⟨_, h1.symm⟩
        | exact ⟨_, h1⟩
    · rw [hst] at h
      cases st
      case Established =>
        rcases hrc : env.recv i with er | n'
        · rw [hrc] at h
          rcases er with _ | e2 <;>
            (simp at h
             obtain ⟨h1, h2⟩ := h
             first
               | exact ⟨_, h1.symm⟩
               | exact ⟨_, h1⟩)
        · rw [hrc] at h
          rcases n' with _ | m
          · exact ih _ _ _ h hmem
          · simp at h
            obtain ⟨h1, h2⟩ := h
            subst h2
            simp at hmem
      case CloseWait =>
        simp at h
        obtain ⟨h1, h2⟩ := h
        subst h2
        simp at hmem
      all_goals
        simp at h
        obtain ⟨h1, h2⟩ := h
        first
          | exact ⟨_, h1.symm⟩
          | exact ⟨_, h1⟩

/-- C3 counterexample: an error return from `listen` that leaves the chip
socket non-closed. With the concrete environment `listenCmdFailEnv` — the
`Listen` command write fails with a transport error — `listen` propagates
the transport error (which is not the client-went-away case) and the
`Close` command is never issued. -/
theorem c3_counterexample :
    (TcpSocket.listen listenCmdFailEnv).1 = .error (.SpiError 0) ∧
    Command.Close ∉ (TcpSocket.listen listenCmdFailEnv).2 := by
  constructor
  · rfl
  · decide

/-- C3 (amended): every failure path that goes through `fail()` — a listen
status mismatch (`ListenFailed`), an unexpected status in accept, read or
write (`BadSocketState`), a peer-initiated close in write (`PeerClosed`),
or a runtime error during a data transfer — issues the hardware `Close`
command before the error is propagated (the error returned being the
`fail` error, or the `Close` write's own failure); moreover `Close` is
issued only on failure paths, in all four operations. Errors arising from
the raw register accesses themselves (transport errors, unknown status
bytes) and the distinct client-went-away case can, however, propagate
without a `Close` being issued. Conjuncts 1–4 track `fail`-class returned
errors; conjuncts 7–13 settle each enumerated `fail()` call site directly
(including a `RequestError::Runtime` error from the inner
`Socket::send`/`recv` data transfer, whose returned error is a raw
register-access error); conjuncts 5–6 and 14–15 prove `Close` happens
only on failure paths. Hypotheses: status reads only produce raw
register-access errors, as in the driver. -/
theorem c3_fail_issues_close
    (lenv : ListenEnv) (aenv : AcceptEnv) (wenv : WriteEnv) (renv : ReadEnv)
    (hl1 : ∀ e, lenv.cmdListen = some e → isRegError e)
    (hl2 : ∀ e, lenv.status = .error e → isRegError e)
    (ha : ∀ i e, aenv.status i = .error e → isRegError e)
    (hw : ∀ e, wenv.status = .error e → isRegError e)
    (hr : ∀ i e, renv.status i = .error e → isRegError e) :
    (∀ e, (TcpSocket.listen lenv).1 = .error e → isFailErr e →
        Command.Close ∈ (TcpSocket.listen lenv).2) ∧
    (∀ fuel r tr e, TcpSocket.accept aenv fuel = some (r, tr) →
        r = .error e → isFailErr e → Command.Close ∈ tr) ∧
    (∀ e, (TcpSocket.write wenv).1 = .error (.runtime e) → isFailErr e →
        Command.Close ∈ (TcpSocket.write wenv).2) ∧
    (∀ fuel r tr e, TcpSocket.read renv fuel = some (r, tr) →
        r = .error (.runtime e) → isFailErr e → Command.Close ∈ tr) ∧
    (Command.Close ∈ (TcpSocket.listen lenv).2 →
        ∃ e, (TcpSocket.listen lenv).1 = .error e) ∧
    (Command.Close ∈ (TcpSocket.write wenv).2 →
        ∃ e, (TcpSocket.write wenv).1 = .error e) ∧
    (lenv.cmdListen = none → ∀ st, lenv.status = .ok st → st ≠ .Listen →
        TcpSocket.listen lenv =
          (.error (failResult .ListenFailed lenv.cmdClose), [.Listen, .Close])) ∧
    (∀ fuel i st, aenv.status i = .ok st → st ≠ .Listen → st ≠ .Established →
        acceptLoop aenv (fuel + 1) i =
          some (.error (failResult (.BadSocketState st.toU8) aenv.cmdClose),
                [.Close])) ∧
    (∀ e, wenv.status = .ok .Established → wenv.send = .error (.runtime e) →
        TcpSocket.write wenv =
          (.error (.runtime (failResult e wenv.cmdClose)), [.Close])) ∧
    (wenv.status = .ok .CloseWait →
        TcpSocket.write wenv =
          (.error (.runtime (failResult .PeerClosed wenv.cmdClose)), [.Close])) ∧
    (∀ st, wenv.status = .ok st → st ≠ .Established → st ≠ .CloseWait →
        TcpSocket.write wenv =
          (.error (.runtime (failResult (.BadSocketState st.toU8) wenv.cmdClose)),
           [.Close])) ∧
    (∀ fuel i e, renv.status i = .ok .Established →
        renv.recv i = .error (.runtime e) →
        readLoop renv (fuel + 1) i =
          some (.error (.runtime (failResult e renv.cmdClose)), [.Close])) ∧
    (∀ fuel i st, renv.status i = .ok st → st ≠ .Established → st ≠ .CloseWait →
        readLoop renv (fuel + 1) i =
          some (.error (.runtime (failResult (.BadSocketState st.toU8) renv.cmdClose)),
                [.Close])) ∧
    (∀ fuel r tr, TcpSocket.accept aenv fuel = some (r, tr) →
        Command.Close ∈ tr → ∃ e, r = .error e) ∧
    (∀ fuel r tr, TcpSocket.read renv fuel = some (r, tr) →
        Command.Close ∈ tr → ∃ e, r = .error e) := by
  refine ⟨?_, ?_, ?_, ?_, ?_, ?_, ?_, ?_, ?_, ?_, ?_, ?_, ?_, ?_, ?_⟩
  · intro e he hf
    rcases hcl : lenv.cmdListen with _ | e'
    · rcases hst : lenv.status with e' | st
      · simp only [TcpSocket.listen, hcl, hst] at he
        simp at he
        simp [regError_not_failErr e (he ▸ hl2 e' hst)] at hf
      · cases st <;> simp only [TcpSocket.listen, hcl, hst] at he ⊢ <;> simp_all
    · simp only [TcpSocket.listen, hcl] at he
      simp at he
      simp [regError_not_failErr e (he ▸ hl1 e' hcl)] at hf
  · intro fuel r tr e h hre hf
    exact acceptLoop_failErr_close aenv ha fuel 0 r tr e h hre hf
  · intro e he hf
    rcases hst : wenv.status with e' | st
    · simp only [TcpSocket.write, hst] at he
      simp at he
      simp [regError_not_failErr e (he ▸ hw e' hst)] at hf
    · cases st
      case Established =>
        rcases hsd : wenv.send with er | n
        · rcases er with _ | e2 <;>
            simp only [TcpSocket.write, hst, hsd] at he ⊢ <;> simp_all
        · simp only [TcpSocket.write, hst, hsd] at he
          simp at he
      all_goals (simp only [TcpSocket.write, hst] at he ⊢; simp_all)
  · intro fuel r tr e h hre hf
    exact readLoop_failErr_close renv hr fuel 0 r tr e h hre hf
  · intro hmem
    rcases hcl : lenv.cmdListen with _ | e'
    · rcases hst : lenv.status with e' | st
      · simp only [TcpSocket.listen, hcl, hst] at hmem
        simp at hmem
      · cases st <;> simp only [TcpSocket.listen, hcl, hst] at hmem ⊢ <;> simp_all
    · simp only [TcpSocket.listen, hcl] at hmem
      simp at hmem
  · intro hmem
    rcases hst : wenv.status with e' | st
    · simp only [TcpSocket.write, hst] at hmem
      simp at hmem
    · cases st
      case Established =>
        rcases hsd : wenv.send with er | n
        · rcases er with _ | e2 <;>
            simp only [TcpSocket.write, hst, hsd] at hmem ⊢ <;> simp_all
        · simp only [TcpSocket.write, hst, hsd] at hmem
          simp at hmem
      all_goals (simp only [TcpSocket.write, hst] at hmem ⊢; simp_all)
  · intro hcl st hst hne
    cases st <;> simp_all [TcpSocket.listen]
  · intro fuel i st hst h1 h2
    cases st <;> simp_all [acceptLoop]
  · intro e hst hsd
    simp [TcpSocket.write, hst, hsd]
  · intro hst
    simp [TcpSocket.write, hst]
  · intro st hst h1 h2
    cases st <;> simp_all [TcpSocket.write]
  · intro fuel i e hst hrc
    simp [readLoop, hst, hrc]
  · intro fuel i st hst h1 h2
    cases st <;> simp_all [readLoop]
  · intro fuel r tr h hmem
    exact acceptLoop_close_only_error aenv fuel 0 r tr h hmem
  · intro fuel r tr h hmem
    exact readLoop_close_only_error renv fuel 0 r tr h hmem

/-- C3 witness: a listen status mismatch, an unexpected `Closed` status in
accept, a peer-close during write, an unexpected `Init` status in read,
and runtime (`SpiError`) failures of the inner send/recv data transfers
all issue `Close`. -/
theorem c3_fail_issues_close_witness :
    Command.Close ∈ (TcpSocket.listen ⟨none, .ok .Closed, none⟩).2 ∧
    (∃ tr, TcpSocket.accept ⟨fun _ => .ok .Closed, none⟩ 1 =
        some (.error (.BadSocketState Status.Closed.toU8), tr) ∧
        Command.Close ∈ tr) ∧
    Command.Close ∈ (TcpSocket.write ⟨.ok .CloseWait, .ok 0, none⟩).2 ∧
    (∃ tr, TcpSocket.read ⟨fun _ => .ok .Init, fun _ => .ok 1, none⟩ 1 =
        some (.error (.runtime (.BadSocketState Status.Init.toU8)), tr) ∧
        Command.Close ∈ tr) ∧
    (TcpSocket.write ⟨.ok .Established, .error (.runtime (.SpiError 3)), none⟩ =
       (.error (.runtime (.SpiError 3)), [.Close])) ∧
    (TcpSocket.read
        ⟨fun _ => .ok .Established, fun _ => .error (.runtime (.SpiError 4)), none⟩ 1 =
       some (.error (.runtime (.SpiError 4)), [.Close])) := by
  have h := c3_fail_issues_close ⟨none, .ok .Closed, none⟩
      ⟨fun _ => .ok .Closed, none⟩ ⟨.ok .CloseWait, .ok 0, none⟩
      ⟨fun _ => .ok .Init, fun _ => .ok 1, none⟩
      (fun e he => by simp at he) (fun e he => by simp at he)
      (fun i e he => by simp at he) (fun e he => by simp at he)
      (fun i e he => by simp at he)
  have h2 := c3_fail_issues_close ⟨none, .ok .Closed, none⟩
      ⟨fun _ => .ok .Closed, none⟩
      ⟨.ok .Established, .error (.runtime (.SpiError 3)), none⟩
      ⟨fun _ => .ok .Established, fun _ => .error (.runtime (.SpiError 4)), none⟩
      (fun e he => by simp at he) (fun e he => by simp at he)
      (fun i e he => by simp at he) (fun e he => by simp at he)
      (fun i e he => by simp at he)
  exact ⟨h.1 .ListenFailed rfl rfl,
    ⟨[Command.Close], rfl,
      h.2.1 1 _ [Command.Close] (.BadSocketState Status.Closed.toU8) rfl rfl rfl⟩,
    h.2.2.1 .PeerClosed rfl rfl,
    ⟨[Command.Close], rfl,
      h.2.2.2.1 1 _ [Command.Close] (.BadSocketState Status.Init.toU8) rfl rfl rfl⟩,
    h2.2.2.2.2.2.2.2.2.1 (.SpiError 3) rfl rfl,
    h2.2.2.2.2.2.2.2.2.2.2.2.1 0 0 (.SpiError 4) rfl rfl⟩

/-- C6: on an `Established` session, if the hardware status reads
`CloseWait` then `tcp_read` returns `Ok(0)` without error (and without
closing), while `tcp_write` fails with `PeerClosed` after the forced
hardware `Close`; for any status other than `Established`/`CloseWait`,
both `tcp_read` and `tcp_write` force a `Close` and return
`BadSocketState` carrying the offending status byte. -/
theorem c6_closewait_behaviour (srv : Server) (c fuel : Nat)
    (renv : ReadEnv) (wenv : WriteEnv)
    (hs : srv.socket = some (c, .Established)) :
    (renv.status 0 = .ok .CloseWait →
       Server.tcp_read srv 0 renv (fuel + 1) = some (.ok 0, [])) ∧
    (wenv.status = .ok .CloseWait → wenv.cmdClose = none →
       Server.tcp_write srv 0 wenv = (.error (.runtime .PeerClosed), [.Close])) ∧
    (∀ st, st ≠ .Established → st ≠ .CloseWait →
       (renv.status 0 = .ok st → renv.cmdClose = none →
          Server.tcp_read srv 0 renv (fuel + 1) =
            some (.error (.runtime (.BadSocketState st.toU8)), [.Close])) ∧
       (wenv.status = .ok st → wenv.cmdClose = none →
          Server.tcp_write srv 0 wenv =
            (.error (.runtime (.BadSocketState st.toU8)), [.Close]))) := by
  have hr0 : Server.tcp_read srv 0 renv (fuel + 1) = TcpSocket.read renv (fuel + 1) := by
    simp [Server.tcp_read, hs]
  have hw0 : Server.tcp_write srv 0 wenv = TcpSocket.write wenv := by
    simp [Server.tcp_write, hs]
  refine ⟨?_, ?_, ?_⟩
  · intro h
    rw [hr0]
    simp [TcpSocket.read, readLoop, h]
  · intro h hcl
    rw [hw0]
    simp [TcpSocket.write, h, hcl, failResult]
  · intro st h1 h2
    constructor
    · intro h hcl
      rw [hr0]
      cases st <;> simp_all [TcpSocket.read, readLoop, failResult]
    · intro h hcl
      rw [hw0]
      cases st <;> simp_all [TcpSocket.write, failResult]

/-- C6 witness: an `Established` session owned by client 5: a `CloseWait`
status gives `read = Ok(0)` and `write = PeerClosed` after `Close`; a
`Listen` status gives `BadSocketState(0x14)` after `Close` on both. -/
theorem c6_closewait_behaviour_witness :
    (Server.tcp_read ⟨some (5, .Established)⟩ 0
        ⟨fun _ => .ok .CloseWait, fun _ => .ok 1, none⟩ 1 = some (.ok 0, [])) ∧
    (Server.tcp_write ⟨some (5, .Established)⟩ 0
        ⟨.ok .CloseWait, .ok 1, none⟩ =
      (.error (.runtime .PeerClosed), [.Close])) ∧
    (Server.tcp_read ⟨some (5, .Established)⟩ 0
        ⟨fun _ => .ok .Listen, fun _ => .ok 1, none⟩ 1 =
      some (.error (.runtime (.BadSocketState Status.Listen.toU8)), [.Close])) ∧
    (Server.tcp_write ⟨some (5, .Established)⟩ 0
        ⟨.ok .Listen, .ok 1, none⟩ =
      (.error (.runtime (.BadSocketState Status.Listen.toU8)), [.Close])) := by
  have h1 := c6_closewait_behaviour ⟨some (5, .Established)⟩ 5 0
      ⟨fun _ => .ok .CloseWait, fun _ => .ok 1, none⟩
      ⟨.ok .CloseWait, .ok 1, none⟩ rfl
  have h2 := c6_closewait_behaviour ⟨some (5, .Established)⟩ 5 0
      ⟨fun _ => .ok .Listen, fun _ => .ok 1, none⟩
      ⟨.ok .Listen, .ok 1, none⟩ rfl
  have h3 := h2.2.2 .Listen (by decide) (by decide)
  exact ⟨h1.1 rfl, h1.2.1 rfl rfl, h3.1 rfl rfl, h3.2 rfl rfl⟩

/-- C1: for every `recv` or `send` transfer of bounded length
`L = min(lease length, reported size) > 0` starting at
`offset = pointer & (S - 1)` in a buffer of size `S`: if `offset + L > S`
the transfer decomposes into exactly two sub-transfers of lengths
`S - offset` and `L - (S - offset)`, which sum to `L`; otherwise into a
single sub-transfer of length `L`. -/
theorem c1_wrap_decomposition (s : Socket) (outLen bufLen rsr fsr rptr tptr : Nat)
    (xfR xfS : Nat → Nat → Nat → Option ReqErr)
    (pwR pwS cmR cmS : Option W5100Error)
    (hxR : ∀ a l p, xfR a l p = none) (hxS : ∀ a l p, xfS a l p = none)
    (hLr : 0 < min outLen rsr) (hLs : 0 < min bufLen fsr) :
    (s.rx_size < (rptr &&& (s.rx_size - 1)) + min outLen rsr →
       xferLens (s.recv outLen ⟨.ok rsr, .ok rptr, xfR, pwR, cmR⟩).2 =
         [s.rx_size - (rptr &&& (s.rx_size - 1)),
          min outLen rsr - (s.rx_size - (rptr &&& (s.rx_size - 1)))] ∧
       (s.rx_size - (rptr &&& (s.rx_size - 1))) +
         (min outLen rsr - (s.rx_size - (rptr &&& (s.rx_size - 1)))) =
         min outLen rsr) ∧
    (¬ s.rx_size < (rptr &&& (s.rx_size - 1)) + min outLen rsr →
       xferLens (s.recv outLen ⟨.ok rsr, .ok rptr, xfR, pwR, cmR⟩).2 =
         [min outLen rsr]) ∧
    (s.tx_size < (tptr &&& (s.tx_size - 1)) + min bufLen fsr →
       xferLens (s.send bufLen ⟨.ok fsr, .ok tptr, xfS, pwS, cmS⟩).2 =
         [s.tx_size - (tptr &&& (s.tx_size - 1)),
          min bufLen fsr - (s.tx_size - (tptr &&& (s.tx_size - 1)))] ∧
       (s.tx_size - (tptr &&& (s.tx_size - 1))) +
         (min bufLen fsr - (s.tx_size - (tptr &&& (s.tx_size - 1)))) =
         min bufLen fsr) ∧
    (¬ s.tx_size < (tptr &&& (s.tx_size - 1)) + min bufLen fsr →
       xferLens (s.send bufLen ⟨.ok fsr, .ok tptr, xfS, pwS, cmS⟩).2 =
         [min bufLen fsr]) := by
  have hsum : ∀ S off L : Nat, S < off + L → (S - off) + (L - (S - off)) = L := by
    intro S off L h
    omega
  have h0r : ¬ (min outLen rsr = 0) := by omega
  have h0s : ¬ (min bufLen fsr = 0) := by omega
  refine ⟨?_, ?_, ?_, ?_⟩
  · intro hw
    refine ⟨?_, hsum _ _ _ hw⟩
    rcases pwR with _ | e1 <;> rcases cmR with _ | e2 <;>
      simp [Socket.recv, h0r, hw, hxR, xferLens]
  · intro hnw
    rcases pwR with _ | e1 <;> rcases cmR with _ | e2 <;>
      simp [Socket.recv, h0r, hnw, hxR, xferLens]
  · intro hw
    refine ⟨?_, hsum _ _ _ hw⟩
    rcases pwS with _ | e1 <;> rcases cmS with _ | e2 <;>
      simp [Socket.send, h0s, hw, hxS, xferLens]
  · intro hnw
    rcases pwS with _ | e1 <;> rcases cmS with _ | e2 <;>
      simp [Socket.send, h0s, hnw, hxS, xferLens]

/-- C1 witness: a wrapping recv (size 8, pointer 6, 5 bytes) splits into
lengths 2 and 3; a non-wrapping send (pointer 2, 3 bytes) is a single
sub-transfer. -/
theorem c1_wrap_decomposition_witness :
    (xferLens (Socket.recv ⟨0, 0, 8, 100, 8⟩ 16
        ⟨.ok 5, .ok 6, fun _ _ _ => none, none, none⟩).2 =
       [(8 : Nat) - (6 &&& (8 - 1)), min 16 5 - (8 - (6 &&& (8 - 1)))] ∧
     ((8 : Nat) - (6 &&& (8 - 1))) + (min 16 5 - (8 - (6 &&& (8 - 1)))) =
       min 16 5) ∧
    xferLens (Socket.send ⟨0, 200, 8, 0, 8⟩ 3
        ⟨.ok 5, .ok 2, fun _ _ _ => none, none, none⟩).2 = [min 3 5] := by
  have h := c1_wrap_decomposition ⟨0, 0, 8, 100, 8⟩ 16 3 5 5 6 2
      (fun _ _ _ => none) (fun _ _ _ => none) none none none none
      (fun a l p => rfl) (fun a l p => rfl) (by decide) (by decide)
  exact ⟨h.1 (by decide), h.2.2.2 (by decide)⟩

/-- Characterization of the leased sub-transfers a `recv` call issues:
every `xfer` event in the trace is one of the wrap-case pair or the
single non-wrap transfer computed from the read pointer. -/
lemma recv_xfer_events (s : Socket) (outLen rsr : Nat)
    (ptrR : Except W5100Error Nat) (xf : Nat → Nat → Nat → Option ReqErr)
    (pw cm : Option W5100Error) :
    ∀ a l p, XferEvent.xfer a l p ∈ (s.recv outLen ⟨.ok rsr, ptrR, xf, pw, cm⟩).2 →
      min outLen rsr ≠ 0 ∧ ∃ rptr, ptrR = .ok rptr ∧
        ((s.rx_size < (rptr &&& (s.rx_size - 1)) + min outLen rsr ∧
            ((a = s.rx_addr + (rptr &&& (s.rx_size - 1)) ∧
              l = s.rx_size - (rptr &&& (s.rx_size - 1)) ∧ p = 0) ∨
             (a = s.rx_addr ∧
              l = min outLen rsr - (s.rx_size - (rptr &&& (s.rx_size - 1))) ∧
              p = s.rx_size - (rptr &&& (s.rx_size - 1))))) ∨
         (¬ s.rx_size < (rptr &&& (s.rx_size - 1)) + min outLen rsr ∧
            a = s.rx_addr + (rptr &&& (s.rx_size - 1)) ∧
            l = min outLen rsr ∧ p = 0)) := by
  intro a l p hmem
  by_cases h0 : min outLen rsr = 0
  · simp [Socket.recv, h0] at hmem
  · rcases ptrR with e | rptr
    · simp [Socket.recv, h0] at hmem
    · refine ⟨h0, rptr, rfl, ?_⟩
      by_cases hw : s.rx_size < (rptr &&& (s.rx_size - 1)) + min outLen rsr
      · refine Or.inl ⟨hw, ?_⟩
        rcases hx1 : xf (s.rx_addr + (rptr &&& (s.rx_size - 1)))
            (s.rx_size - (rptr &&& (s.rx_size - 1))) 0 with _ | err1 <;>
        rcases hx2 : xf s.rx_addr
            (min outLen rsr - (s.rx_size - (rptr &&& (s.rx_size - 1))))
            (s.rx_size - (rptr &&& (s.rx_size - 1))) with _ | err2 <;>
        rcases pw with _ | e1 <;> rcases cm with _ | e2 <;>
          simp [Socket.recv, h0, hw, hx1, hx2] at hmem <;> tauto
      · refine Or.inr ⟨hw, ?_⟩
        rcases hx1 : xf (s.rx_addr + (rptr &&& (s.rx_size - 1)))
            (min outLen rsr) 0 with _ | err1 <;>
        rcases pw with _ | e1 <;> rcases cm with _ | e2 <;>
          simp [Socket.recv, h0, hw, hx1] at hmem <;> tauto

/-- Characterization of the sub-transfer length list of a `recv` call. -/
lemma recv_lens_cases (s : Socket) (outLen rsr : Nat)
    (ptrR : Except W5100Error Nat) (xf : Nat → Nat → Nat → Option ReqErr)
    (pw cm : Option W5100Error) :
    xferLens (s.recv outLen ⟨.ok rsr, ptrR, xf, pw, cm⟩).2 = [] ∨
    (∃ rptr, ptrR = .ok rptr ∧
      ((s.rx_size < (rptr &&& (s.rx_size - 1)) + min outLen rsr ∧
         (xferLens (s.recv outLen ⟨.ok rsr, ptrR, xf, pw, cm⟩).2 =
            [s.rx_size - (rptr &&& (s.rx_size - 1))] ∨
          xferLens (s.recv outLen ⟨.ok rsr, ptrR, xf, pw, cm⟩).2 =
            [s.rx_size - (rptr &&& (s.rx_size - 1)),
             min outLen rsr - (s.rx_size - (rptr &&& (s.rx_size - 1)))])) ∨
       (¬ s.rx_size < (rptr &&& (s.rx_size - 1)) + min outLen rsr ∧
          xferLens (s.recv outLen ⟨.ok rsr, ptrR, xf, pw, cm⟩).2 =
            [min outLen rsr]))) := by
  by_cases h0 : min outLen rsr = 0
  · left
    simp [Socket.recv, h0, xferLens]
  · rcases ptrR with e | rptr
    · left
      simp [Socket.recv, h0, xferLens]
    · right
      refine ⟨rptr, rfl, ?_⟩
      by_cases hw : s.rx_size < (rptr &&& (s.rx_size - 1)) + min outLen rsr
      · refine Or.inl ⟨hw, ?_⟩
        rcases hx1 : xf (s.rx_addr + (rptr &&& (s.rx_size - 1)))
            (s.rx_size - (rptr &&& (s.rx_size - 1))) 0 with _ | err1 <;>
        rcases hx2 : xf s.rx_addr
            (min outLen rsr - (s.rx_size - (rptr &&& (s.rx_size - 1))))
            (s.rx_size - (rptr &&& (s.rx_size - 1))) with _ | err2 <;>
        rcases pw with _ | e1 <;> rcases cm with _ | e2 <;>
          simp [Socket.recv, h0, hw, hx1, hx2, xferLens]
      · refine Or.inr ⟨hw, ?_⟩
        rcases hx1 : xf (s.rx_addr + (rptr &&& (s.rx_size - 1)))
            (min outLen rsr) 0 with _ | err1 <;>
        rcases pw with _ | e1 <;> rcases cm with _ | e2 <;>
          simp [Socket.recv, h0, hw, hx1, xferLens]

/-- Characterization of the leased sub-transfers a `send` call issues. -/
lemma send_xfer_events (s : Socket) (bufLen fsr : Nat)
    (ptrS : Except W5100Error Nat) (xf : Nat → Nat → Nat → Option ReqErr)
    (pw cm : Option W5100Error) :
    ∀ a l p, XferEvent.xfer a l p ∈ (s.send bufLen ⟨.ok fsr, ptrS, xf, pw, cm⟩).2 →
      min bufLen fsr ≠ 0 ∧ ∃ tptr, ptrS = .ok tptr ∧
        ((s.tx_size < (tptr &&& (s.tx_size - 1)) + min bufLen fsr ∧
            ((a = s.tx_addr + (tptr &&& (s.tx_size - 1)) ∧
              l = s.tx_size - (tptr &&& (s.tx_size - 1)) ∧ p = 0) ∨
             (a = s.tx_addr ∧
              l = min bufLen fsr - (s.tx_size - (tptr &&& (s.tx_size - 1))) ∧
              p = s.tx_size - (tptr &&& (s.tx_size - 1))))) ∨
         (¬ s.tx_size < (tptr &&& (s.tx_size - 1)) + min bufLen fsr ∧
            a = s.tx_addr + (tptr &&& (s.tx_size - 1)) ∧
            l = min bufLen fsr ∧ p = 0)) := by
  intro a l p hmem
  by_cases h0 : min bufLen fsr = 0
  · simp [Socket.send, h0] at hmem
  · rcases ptrS with e | tptr
    · simp [Socket.send, h0] at hmem
    · refine ⟨h0, tptr, rfl, ?_⟩
      by_cases hw : s.tx_size < (tptr &&& (s.tx_size - 1)) + min bufLen fsr
      · refine Or.inl ⟨hw, ?_⟩
        rcases hx1 : xf (s.tx_addr + (tptr &&& (s.tx_size - 1)))
            (s.tx_size - (tptr &&& (s.tx_size - 1))) 0 with _ | err1 <;>
        rcases hx2 : xf s.tx_addr
            (min bufLen fsr - (s.tx_size - (tptr &&& (s.tx_size - 1))))
            (s.tx_size - (tptr &&& (s.tx_size - 1))) with _ | err2 <;>
        rcases pw with _ | e1 <;> rcases cm with _ | e2 <;>
          simp [Socket.send, h0, hw, hx1, hx2] at hmem <;> tauto
      · refine Or.inr ⟨hw, ?_⟩
        rcases hx1 : xf (s.tx_addr + (tptr &&& (s.tx_size - 1)))
            (min bufLen fsr) 0 with _ | err1 <;>
        rcases pw with _ | e1 <;> rcases cm with _ | e2 <;>
          simp [Socket.send, h0, hw, hx1] at hmem <;> tauto

/-- Characterization of the sub-transfer length list of a `send` call. -/
lemma send_lens_cases (s : Socket) (bufLen fsr : Nat)
    (ptrS : Except W5100Error Nat) (xf : Nat → Nat → Nat → Option ReqErr)
    (pw cm : Option W5100Error) :
    xferLens (s.send bufLen ⟨.ok fsr, ptrS, xf, pw, cm⟩).2 = [] ∨
    (∃ tptr, ptrS = .ok tptr ∧
      ((s.tx_size < (tptr &&& (s.tx_size - 1)) + min bufLen fsr ∧
         (xferLens (s.send bufLen ⟨.ok fsr, ptrS, xf, pw, cm⟩).2 =
            [s.tx_size - (tptr &&& (s.tx_size - 1))] ∨
          xferLens (s.send bufLen ⟨.ok fsr, ptrS, xf, pw, cm⟩).2 =
            [s.tx_size - (tptr &&& (s.tx_size - 1)),
             min bufLen fsr - (s.tx_size - (tptr &&& (s.tx_size - 1)))])) ∨
       (¬ s.tx_size < (tptr &&& (s.tx_size - 1)) + min bufLen fsr ∧
          xferLens (s.send bufLen ⟨.ok fsr, ptrS, xf, pw, cm⟩).2 =
            [min bufLen fsr]))) := by
  by_cases h0 : min bufLen fsr = 0
  · left
    simp [Socket.send, h0, xferLens]
  · rcases ptrS with e | tptr
    · left
      simp [Socket.send, h0, xferLens]
    · right
      refine ⟨tptr, rfl, ?_⟩
      by_cases hw : s.tx_size < (tptr &&& (s.tx_size - 1)) + min bufLen fsr
      · refine Or.inl ⟨hw, ?_⟩
        rcases hx1 : xf (s.tx_addr + (tptr &&& (s.tx_size - 1)))
            (s.tx_size - (tptr &&& (s.tx_size - 1))) 0 with _ | err1 <;>
        rcases hx2 : xf s.tx_addr
            (min bufLen fsr - (s.tx_size - (tptr &&& (s.tx_size - 1))))
            (s.tx_size - (tptr &&& (s.tx_size - 1))) with _ | err2 <;>
        rcases pw with _ | e1 <;> rcases cm with _ | e2 <;>
          simp [Socket.send, h0, hw, hx1, hx2, xferLens]
      · refine Or.inr ⟨hw, ?_⟩
        rcases hx1 : xf (s.tx_addr + (tptr &&& (s.tx_size - 1)))
            (min bufLen fsr) 0 with _ | err1 <;>
        rcases pw with _ | e1 <;> rcases cm with _ | e2 <;>
          simp [Socket.send, h0, hw, hx1, xferLens]

/-- C2: `recv`/`send` never transfer more than the hardware-reported
pending/free size nor the lease length; a bounded length of 0 returns
`Ok(0)` with no hardware effect on the buffer; and every sub-transfer
handed to the leased read/write path has strictly positive length and
fits within the lease from its position (so the assertions in
`read_raw_lease`/`write_raw_lease` cannot fire). Buffer sizes are powers
of two, as configured by `Socket::new`. -/
theorem c2_bounded_transfers (s : Socket) (outLen bufLen rsr fsr : Nat)
    (ptrR ptrS : Except W5100Error Nat)
    (xfR xfS : Nat → Nat → Nat → Option ReqErr)
    (pwR pwS cmR cmS : Option W5100Error)
    (hpowR : ∃ k, s.rx_size = 2 ^ k) (hpowS : ∃ k, s.tx_size = 2 ^ k) :
    (min outLen rsr = 0 →
       s.recv outLen ⟨.ok rsr, ptrR, xfR, pwR, cmR⟩ = (.ok 0, [])) ∧
    (∀ n, (s.recv outLen ⟨.ok rsr, ptrR, xfR, pwR, cmR⟩).1 = .ok n →
       n ≤ rsr ∧ n ≤ outLen) ∧
    (∀ a l p, XferEvent.xfer a l p ∈ (s.recv outLen ⟨.ok rsr, ptrR, xfR, pwR, cmR⟩).2 →
       0 < l ∧ p + l ≤ min outLen rsr) ∧
    ((xferLens (s.recv outLen ⟨.ok rsr, ptrR, xfR, pwR, cmR⟩).2).sum ≤
       min outLen rsr) ∧
    (min bufLen fsr = 0 →
       s.send bufLen ⟨.ok fsr, ptrS, xfS, pwS, cmS⟩ = (.ok 0, [])) ∧
    (∀ n, (s.send bufLen ⟨.ok fsr, ptrS, xfS, pwS, cmS⟩).1 = .ok n →
       n ≤ fsr ∧ n ≤ bufLen) ∧
    (∀ a l p, XferEvent.xfer a l p ∈ (s.send bufLen ⟨.ok fsr, ptrS, xfS, pwS, cmS⟩).2 →
       0 < l ∧ p + l ≤ min bufLen fsr) ∧
    ((xferLens (s.send bufLen ⟨.ok fsr, ptrS, xfS, pwS, cmS⟩).2).sum ≤
       min bufLen fsr) := by
  obtain ⟨kr, hSr⟩ := hpowR
  obtain ⟨ks, hSs⟩ := hpowS
  have hSrpos : 0 < s.rx_size := by
    rw [hSr]
    exact pow_pos (by norm_num) kr
  have hSspos : 0 < s.tx_size := by
    rw [hSs]
    exact pow_pos (by norm_num) ks
  refine ⟨?_, ?_, ?_, ?_, ?_, ?_, ?_, ?_⟩
  · intro h0
    simp [Socket.recv, h0]
  · intro n hn
    by_cases h0 : min outLen rsr = 0
    · simp [Socket.recv, h0] at hn
      omega
    · rcases ptrR with e | rptr
      · simp [Socket.recv, h0] at hn
      · by_cases hw : s.rx_size < (rptr &&& (s.rx_size - 1)) + min outLen rsr
        · rcases hx1 : xfR (s.rx_addr + (rptr &&& (s.rx_size - 1)))
              (s.rx_size - (rptr &&& (s.rx_size - 1))) 0 with _ | err1 <;>
          rcases hx2 : xfR s.rx_addr
              (min outLen rsr - (s.rx_size - (rptr &&& (s.rx_size - 1))))
              (s.rx_size - (rptr &&& (s.rx_size - 1))) with _ | err2 <;>
          rcases pwR with _ | e1 <;> rcases cmR with _ | e2 <;>
            simp [Socket.recv, h0, hw, hx1, hx2] at hn <;> omega
        · rcases hx1 : xfR (s.rx_addr + (rptr &&& (s.rx_size - 1)))
              (min outLen rsr) 0 with _ | err1 <;>
          rcases pwR with _ | e1 <;> rcases cmR with _ | e2 <;>
            simp [Socket.recv, h0, hw, hx1] at hn <;> omega
  · intro a l p hmem
    obtain ⟨h0, rptr, -, hcase⟩ :=
      recv_xfer_events s outLen rsr ptrR xfR pwR cmR a l p hmem
    have hoff : rptr &&& (s.rx_size - 1) ≤ s.rx_size - 1 := Nat.and_le_right
    rcases hcase with ⟨hw, ⟨ha, hl, hp⟩ | ⟨ha, hl, hp⟩⟩ | ⟨hnw, ha, hl, hp⟩ <;>
      subst hl <;> subst hp <;> omega
  · rcases recv_lens_cases s outLen rsr ptrR xfR pwR cmR with h | ⟨rptr, -, hcase⟩
    · simp [h]
    · have hoff : rptr &&& (s.rx_size - 1) ≤ s.rx_size - 1 := Nat.and_le_right
      rcases hcase with ⟨hw, h | h⟩ | ⟨hnw, h⟩ <;> simp [h] <;> omega
  · intro h0
    simp [Socket.send, h0]
  · intro n hn
    by_cases h0 : min bufLen fsr = 0
    · simp [Socket.send, h0] at hn
      omega
    · rcases ptrS with e | tptr
      · simp [Socket.send, h0] at hn
      · by_cases hw : s.tx_size < (tptr &&& (s.tx_size - 1)) + min bufLen fsr
        · rcases hx1 : xfS (s.tx_addr + (tptr &&& (s.tx_size - 1)))
              (s.tx_size - (tptr &&& (s.tx_size - 1))) 0 with _ | err1 <;>
          rcases hx2 : xfS s.tx_addr
              (min bufLen fsr - (s.tx_size - (tptr &&& (s.tx_size - 1))))
              (s.tx_size - (tptr &&& (s.tx_size - 1))) with _ | err2 <;>
          rcases pwS with _ | e1 <;> rcases cmS with _ | e2 <;>
            simp [Socket.send, h0, hw, hx1, hx2] at hn <;> omega
        · rcases hx1 : xfS (s.tx_addr + (tptr &&& (s.tx_size - 1)))
              (min bufLen fsr) 0 with _ | err1 <;>
          rcases pwS with _ | e1 <;> rcases cmS with _ | e2 <;>
            simp [Socket.send, h0, hw, hx1] at hn <;> omega
  · intro a l p hmem
    obtain ⟨h0, tptr, -, hcase⟩ :=
      send_xfer_events s bufLen fsr ptrS xfS pwS cmS a l p hmem
    have hoff : tptr &&& (s.tx_size - 1) ≤ s.tx_size - 1 := Nat.and_le_right
    rcases hcase with ⟨hw, ⟨ha, hl, hp⟩ | ⟨ha, hl, hp⟩⟩ | ⟨hnw, ha, hl, hp⟩ <;>
      subst hl <;> subst hp <;> omega
  · rcases send_lens_cases s bufLen fsr ptrS xfS pwS cmS with h | ⟨tptr, -, hcase⟩
    · simp [h]
    · have hoff : tptr &&& (s.tx_size - 1) ≤ s.tx_size - 1 := Nat.and_le_right
      rcases hcase with ⟨hw, h | h⟩ | ⟨hnw, h⟩ <;> simp [h] <;> omega

/-- C2 witness: a wrapping recv of 5 pending bytes into a 16-byte lease on
a size-8 (2^3) buffer transfers 5 ≤ 5 bytes, every issued sub-transfer is
positive and lease-bounded, and a send with an empty lease returns `Ok(0)`
with no hardware effect. -/
theorem c2_bounded_transfers_witness :
    ((5 : Nat) ≤ 5 ∧ (5 : Nat) ≤ 16) ∧
    ((0 : Nat) < 2 ∧ 0 + 2 ≤ min 16 5) ∧
    ((xferLens (Socket.recv ⟨0, 0, 8, 100, 8⟩ 16
        ⟨.ok 5, .ok 6, fun _ _ _ => none, none, none⟩).2).sum ≤ min 16 5) ∧
    (Socket.send ⟨0, 0, 8, 100, 8⟩ 0
        ⟨.ok 5, .ok 2, fun _ _ _ => none, none, none⟩ = (.ok 0, [])) := by
  have h := c2_bounded_transfers ⟨0, 0, 8, 100, 8⟩ 16 0 5 5 (.ok 6) (.ok 2)
      (fun _ _ _ => none) (fun _ _ _ => none) none none none none
      ⟨3, rfl⟩ ⟨3, rfl⟩
  exact ⟨h.2.1 5 rfl, h.2.2.1 106 2 0 (by decide), h.2.2.2.1,
    h.2.2.2.2.1 rfl⟩

/-- If any sub-transfer of a `recv` fails, the call errors out with no
pointer-register write and no command issued. -/
lemma recv_fail_no_commit (s : Socket) (outLen rsr rptr : Nat)
    (xf : Nat → Nat → Nat → Option ReqErr) (pw cm : Option W5100Error) :
    (∃ a l p, XferEvent.xfer a l p ∈ (s.recv outLen ⟨.ok rsr, .ok rptr, xf, pw, cm⟩).2 ∧
       xf a l p ≠ none) →
    (∃ e, (s.recv outLen ⟨.ok rsr, .ok rptr, xf, pw, cm⟩).1 = .error e) ∧
    (∀ v, XferEvent.writePtr v ∉ (s.recv outLen ⟨.ok rsr, .ok rptr, xf, pw, cm⟩).2) ∧
    (∀ c, XferEvent.command c ∉ (s.recv outLen ⟨.ok rsr, .ok rptr, xf, pw, cm⟩).2) := by
  rintro ⟨a, l, p, hmem, hfail⟩
  by_cases h0 : min outLen rsr = 0
  · simp [Socket.recv, h0] at hmem
  · by_cases hw : s.rx_size < (rptr &&& (s.rx_size - 1)) + min outLen rsr
    · rcases hx1 : xf (s.rx_addr + (rptr &&& (s.rx_size - 1)))
          (s.rx_size - (rptr &&& (s.rx_size - 1))) 0 with _ | err1
      · rcases hx2 : xf s.rx_addr
            (min outLen rsr - (s.rx_size - (rptr &&& (s.rx_size - 1))))
            (s.rx_size - (rptr &&& (s.rx_size - 1))) with _ | err2
        · rcases pw with _ | e1 <;> rcases cm with _ | e2 <;>
            simp [Socket.recv, h0, hw, hx1, hx2] at hmem <;>
            rcases hmem with ⟨ha, hl, hp⟩ | ⟨ha, hl, hp⟩ <;>
            subst ha <;> subst hl <;> subst hp <;> simp_all
        · simp [Socket.recv, h0, hw, hx1, hx2]
      · simp [Socket.recv, h0, hw, hx1]
    · rcases hx1 : xf (s.rx_addr + (rptr &&& (s.rx_size - 1)))
          (min outLen rsr) 0 with _ | err1
      · rcases pw with _ | e1 <;> rcases cm with _ | e2 <;>
          simp [Socket.recv, h0, hw, hx1] at hmem <;>
          obtain ⟨ha, hl, hp⟩ := hmem <;>
          subst ha <;> subst hl <;> subst hp <;> simp_all
      · simp [Socket.recv, h0, hw, hx1]

/-- A pointer-register write appears in a `recv` trace only after every
issued sub-transfer succeeded, and it writes exactly
`rd_pointer.wrapping_add(nready)`. -/
lemma recv_writePtr_commit (s : Socket) (outLen rsr rptr : Nat)
    (xf : Nat → Nat → Nat → Option ReqErr) (pw cm : Option W5100Error) :
    ∀ v, XferEvent.writePtr v ∈ (s.recv outLen ⟨.ok rsr, .ok rptr, xf, pw, cm⟩).2 →
      (∀ a l p, XferEvent.xfer a l p ∈ (s.recv outLen ⟨.ok rsr, .ok rptr, xf, pw, cm⟩).2 →
         xf a l p = none) ∧
      v = (rptr + min outLen rsr) % 65536 := by
  intro v hv
  by_cases h0 : min outLen rsr = 0
  · simp [Socket.recv, h0] at hv
  · by_cases hw : s.rx_size < (rptr &&& (s.rx_size - 1)) + min outLen rsr
    · rcases hx1 : xf (s.rx_addr + (rptr &&& (s.rx_size - 1)))
          (s.rx_size - (rptr &&& (s.rx_size - 1))) 0 with _ | err1
      · rcases hx2 : xf s.rx_addr
            (min outLen rsr - (s.rx_size - (rptr &&& (s.rx_size - 1))))
            (s.rx_size - (rptr &&& (s.rx_size - 1))) with _ | err2
        · refine ⟨?_, ?_⟩
          · intro a l p hm
            rcases pw with _ | e1 <;> rcases cm with _ | e2 <;>
              simp [Socket.recv, h0, hw, hx1, hx2] at hm <;>
              (rcases hm with ⟨ha, hl, hp⟩ | ⟨ha, hl, hp⟩ <;> subst_vars <;> assumption)
          · rcases pw with _ | e1 <;> rcases cm with _ | e2 <;>
              simp [Socket.recv, h0, hw, hx1, hx2] at hv <;> exact hv
        · simp [Socket.recv, h0, hw, hx1, hx2] at hv
      · simp [Socket.recv, h0, hw, hx1] at hv
    · rcases hx1 : xf (s.rx_addr + (rptr &&& (s.rx_size - 1)))
          (min outLen rsr) 0 with _ | err1
      · refine ⟨?_, ?_⟩
        · intro a l p hm
          rcases pw with _ | e1 <;> rcases cm with _ | e2 <;>
            simp [Socket.recv, h0, hw, hx1] at hm <;>
            (obtain ⟨ha, hl, hp⟩ := hm
             subst_vars
             assumption)
        · rcases pw with _ | e1 <;> rcases cm with _ | e2 <;>
            simp [Socket.recv, h0, hw, hx1] at hv <;> exact hv
      · simp [Socket.recv, h0, hw, hx1] at hv

/-- A successful non-empty `recv` has written the advanced read pointer
(16-bit wrapping) and issued the `Recv` command. -/
lemma recv_ok_commit (s : Socket) (outLen rsr rptr : Nat)
    (xf : Nat → Nat → Nat → Option ReqErr) (pw cm : Option W5100Error) :
    ∀ n, (s.recv outLen ⟨.ok rsr, .ok rptr, xf, pw, cm⟩).1 = .ok n → 0 < n →
      XferEvent.writePtr ((rptr + n) % 65536) ∈
        (s.recv outLen ⟨.ok rsr, .ok rptr, xf, pw, cm⟩).2 ∧
      XferEvent.command .Recv ∈
        (s.recv outLen ⟨.ok rsr, .ok rptr, xf, pw, cm⟩).2 := by
  intro n hn hpos
  by_cases h0 : min outLen rsr = 0
  · simp [Socket.recv, h0] at hn
    omega
  · by_cases hw : s.rx_size < (rptr &&& (s.rx_size - 1)) + min outLen rsr
    · rcases hx1 : xf (s.rx_addr + (rptr &&& (s.rx_size - 1)))
          (s.rx_size - (rptr &&& (s.rx_size - 1))) 0 with _ | err1
      · rcases hx2 : xf s.rx_addr
            (min outLen rsr - (s.rx_size - (rptr &&& (s.rx_size - 1))))
            (s.rx_size - (rptr &&& (s.rx_size - 1))) with _ | err2
        · rcases pw with _ | e1 <;> rcases cm with _ | e2 <;>
            simp [Socket.recv, h0, hw, hx1, hx2] at hn ⊢ <;>
            simp [← hn]
        · simp [Socket.recv, h0, hw, hx1, hx2] at hn
      · simp [Socket.recv, h0, hw, hx1] at hn
    · rcases hx1 : xf (s.rx_addr + (rptr &&& (s.rx_size - 1)))
          (min outLen rsr) 0 with _ | err1
      · rcases pw with _ | e1 <;> rcases cm with _ | e2 <;>
          simp [Socket.recv, h0, hw, hx1] at hn ⊢ <;>
          simp [← hn]
      · simp [Socket.recv, h0, hw, hx1] at hn

/-- If any sub-transfer of a `send` fails, the call errors out with no
pointer-register write and no command issued. -/
lemma send_fail_no_commit (s : Socket) (bufLen fsr tptr : Nat)
    (xf : Nat → Nat → Nat → Option ReqErr) (pw cm : Option W5100Error) :
    (∃ a l p, XferEvent.xfer a l p ∈ (s.send bufLen ⟨.ok fsr, .ok tptr, xf, pw, cm⟩).2 ∧
       xf a l p ≠ none) →
    (∃ e, (s.send bufLen ⟨.ok fsr, .ok tptr, xf, pw, cm⟩).1 = .error e) ∧
    (∀ v, XferEvent.writePtr v ∉ (s.send bufLen ⟨.ok fsr, .ok tptr, xf, pw, cm⟩).2) ∧
    (∀ c, XferEvent.command c ∉ (s.send bufLen ⟨.ok fsr, .ok tptr, xf, pw, cm⟩).2) := by
  rintro ⟨a, l, p, hmem, hfail⟩
  by_cases h0 : min bufLen fsr = 0
  · simp [Socket.send, h0] at hmem
  · by_cases hw : s.tx_size < (tptr &&& (s.tx_size - 1)) + min bufLen fsr
    · rcases hx1 : xf (s.tx_addr + (tptr &&& (s.tx_size - 1)))
          (s.tx_size - (tptr &&& (s.tx_size - 1))) 0 with _ | err1
      · rcases hx2 : xf s.tx_addr
            (min bufLen fsr - (s.tx_size - (tptr &&& (s.tx_size - 1))))
            (s.tx_size - (tptr &&& (s.tx_size - 1))) with _ | err2
        · rcases pw with _ | e1 <;> rcases cm with _ | e2 <;>
            simp [Socket.send, h0, hw, hx1, hx2] at hmem <;>
            rcases hmem with ⟨ha, hl, hp⟩ | ⟨ha, hl, hp⟩ <;>
            subst ha <;> subst hl <;> subst hp <;> simp_all
        · simp [Socket.send, h0, hw, hx1, hx2]
      · simp [Socket.send, h0, hw, hx1]
    · rcases hx1 : xf (s.tx_addr + (tptr &&& (s.tx_size - 1)))
          (min bufLen fsr) 0 with _ | err1
      · rcases pw with _ | e1 <;> rcases cm with _ | e2 <;>
          simp [Socket.send, h0, hw, hx1] at hmem <;>
          obtain ⟨ha, hl, hp⟩ := hmem <;>
          subst ha <;> subst hl <;> subst hp <;> simp_all
      · simp [Socket.send, h0, hw, hx1]

/-- A pointer-register write appears in a `send` trace only after every
issued sub-transfer succeeded, and it writes exactly
`tx_pointer.wrapping_add(tx_free)`. -/
lemma send_writePtr_commit (s : Socket) (bufLen fsr tptr : Nat)
    (xf : Nat → Nat → Nat → Option ReqErr) (pw cm : Option W5100Error) :
    ∀ v, XferEvent.writePtr v ∈ (s.send bufLen ⟨.ok fsr, .ok tptr, xf, pw, cm⟩).2 →
      (∀ a l p, XferEvent.xfer a l p ∈ (s.send bufLen ⟨.ok fsr, .ok tptr, xf, pw, cm⟩).2 →
         xf a l p = none) ∧
      v = (tptr + min bufLen fsr) % 65536 := by
  intro v hv
  by_cases h0 : min bufLen fsr = 0
  · simp [Socket.send, h0] at hv
  · by_cases hw : s.tx_size < (tptr &&& (s.tx_size - 1)) + min bufLen fsr
    · rcases hx1 : xf (s.tx_addr + (tptr &&& (s.tx_size - 1)))
          (s.tx_size - (tptr &&& (s.tx_size - 1))) 0 with _ | err1
      · rcases hx2 : xf s.tx_addr
            (min bufLen fsr - (s.tx_size - (tptr &&& (s.tx_size - 1))))
            (s.tx_size - (tptr &&& (s.tx_size - 1))) with _ | err2
        · refine ⟨?_, ?_⟩
          · intro a l p hm
            rcases pw with _ | e1 <;> rcases cm with _ | e2 <;>
              simp [Socket.send, h0, hw, hx1, hx2] at hm <;>
              (rcases hm with ⟨ha, hl, hp⟩ | ⟨ha, hl, hp⟩ <;> subst_vars <;> assumption)
          · rcases pw with _ | e1 <;> rcases cm with _ | e2 <;>
              simp [Socket.send, h0, hw, hx1, hx2] at hv <;> exact hv
        · simp [Socket.send, h0, hw, hx1, hx2] at hv
      · simp [Socket.send, h0, hw, hx1] at hv
    · rcases hx1 : xf (s.tx_addr + (tptr &&& (s.tx_size - 1)))
          (min bufLen fsr) 0 with _ | err1
      · refine ⟨?_, ?_⟩
        · intro a l p hm
          rcases pw with _ | e1 <;> rcases cm with _ | e2 <;>
            simp [Socket.send, h0, hw, hx1] at hm <;>
            (obtain ⟨ha, hl, hp⟩ := hm
             subst_vars
             assumption)
        · rcases pw with _ | e1 <;> rcases cm with _ | e2 <;>
            simp [Socket.send, h0, hw, hx1] at hv <;> exact hv
      · simp [Socket.send, h0, hw, hx1] at hv

/-- A successful non-empty `send` has written the advanced write pointer
(16-bit wrapping) and issued the `Send` command. -/
lemma send_ok_commit (s : Socket) (bufLen fsr tptr : Nat)
    (xf : Nat → Nat → Nat → Option ReqErr) (pw cm : Option W5100Error) :
    ∀ n, (s.send bufLen ⟨.ok fsr, .ok tptr, xf, pw, cm⟩).1 = .ok n → 0 < n →
      XferEvent.writePtr ((tptr + n) % 65536) ∈
        (s.send bufLen ⟨.ok fsr, .ok tptr, xf, pw, cm⟩).2 ∧
      XferEvent.command .Send ∈
        (s.send bufLen ⟨.ok fsr, .ok tptr, xf, pw, cm⟩).2 := by
  intro n hn hpos
  by_cases h0 : min bufLen fsr = 0
  · simp [Socket.send, h0] at hn
    omega
  · by_cases hw : s.tx_size < (tptr &&& (s.tx_size - 1)) + min bufLen fsr
    · rcases hx1 : xf (s.tx_addr + (tptr &&& (s.tx_size - 1)))
          (s.tx_size - (tptr &&& (s.tx_size - 1))) 0 with _ | err1
      · rcases hx2 : xf s.tx_addr
            (min bufLen fsr - (s.tx_size - (tptr &&& (s.tx_size - 1))))
            (s.tx_size - (tptr &&& (s.tx_size - 1))) with _ | err2
        · rcases pw with _ | e1 <;> rcases cm with _ | e2 <;>
            simp [Socket.send, h0, hw, hx1, hx2] at hn ⊢ <;>
            simp [← hn]
        · simp [Socket.send, h0, hw, hx1, hx2] at hn
      · simp [Socket.send, h0, hw, hx1] at hn
    · rcases hx1 : xf (s.tx_addr + (tptr &&& (s.tx_size - 1)))
          (min bufLen fsr) 0 with _ | err1
      · rcases pw with _ | e1 <;> rcases cm with _ | e2 <;>
          simp [Socket.send, h0, hw, hx1] at hn ⊢ <;>
          simp [← hn]
      · simp [Socket.send, h0, hw, hx1] at hn

/-- C5: in `recv` and `send` the ring-pointer register is written, and the
`Recv`/`Send` command issued, only after the entire data move has
succeeded: if any sub-transfer fails, the operation returns an error with
no pointer write and no command in its effect trace; a pointer write in
the trace implies every issued sub-transfer succeeded and carries exactly
the old pointer advanced by the transferred length with wrapping 16-bit
addition; and a successful non-empty operation has written that advanced
pointer and issued the `Recv`/`Send` command. -/
theorem c5_commit_after_move (s : Socket) (outLen bufLen rsr fsr rptr tptr : Nat)
    (xfR xfS : Nat → Nat → Nat → Option ReqErr)
    (pwR pwS cmR cmS : Option W5100Error) :
    ((∃ a l p, XferEvent.xfer a l p ∈
         (s.recv outLen ⟨.ok rsr, .ok rptr, xfR, pwR, cmR⟩).2 ∧ xfR a l p ≠ none) →
       (∃ e, (s.recv outLen ⟨.ok rsr, .ok rptr, xfR, pwR, cmR⟩).1 = .error e) ∧
       (∀ v, XferEvent.writePtr v ∉ (s.recv outLen ⟨.ok rsr, .ok rptr, xfR, pwR, cmR⟩).2) ∧
       (∀ c, XferEvent.command c ∉ (s.recv outLen ⟨.ok rsr, .ok rptr, xfR, pwR, cmR⟩).2)) ∧
    (∀ v, XferEvent.writePtr v ∈ (s.recv outLen ⟨.ok rsr, .ok rptr, xfR, pwR, cmR⟩).2 →
       (∀ a l p, XferEvent.xfer a l p ∈
          (s.recv outLen ⟨.ok rsr, .ok rptr, xfR, pwR, cmR⟩).2 → xfR a l p = none) ∧
       v = (rptr + min outLen rsr) % 65536) ∧
    (∀ n, (s.recv outLen ⟨.ok rsr, .ok rptr, xfR, pwR, cmR⟩).1 = .ok n → 0 < n →
       XferEvent.writePtr ((rptr + n) % 65536) ∈
         (s.recv outLen ⟨.ok rsr, .ok rptr, xfR, pwR, cmR⟩).2 ∧
       XferEvent.command .Recv ∈
         (s.recv outLen ⟨.ok rsr, .ok rptr, xfR, pwR, cmR⟩).2) ∧
    ((∃ a l p, XferEvent.xfer a l p ∈
         (s.send bufLen ⟨.ok fsr, .ok tptr, xfS, pwS, cmS⟩).2 ∧ xfS a l p ≠ none) →
       (∃ e, (s.send bufLen ⟨.ok fsr, .ok tptr, xfS, pwS, cmS⟩).1 = .error e) ∧
       (∀ v, XferEvent.writePtr v ∉ (s.send bufLen ⟨.ok fsr, .ok tptr, xfS, pwS, cmS⟩).2) ∧
       (∀ c, XferEvent.command c ∉ (s.send bufLen ⟨.ok fsr, .ok tptr, xfS, pwS, cmS⟩).2)) ∧
    (∀ v, XferEvent.writePtr v ∈ (s.send bufLen ⟨.ok fsr, .ok tptr, xfS, pwS, cmS⟩).2 →
       (∀ a l p, XferEvent.xfer a l p ∈
          (s.send bufLen ⟨.ok fsr, .ok tptr, xfS, pwS, cmS⟩).2 → xfS a l p = none) ∧
       v = (tptr + min bufLen fsr) % 65536) ∧
    (∀ n, (s.send bufLen ⟨.ok fsr, .ok tptr, xfS, pwS, cmS⟩).1 = .ok n → 0 < n →
       XferEvent.writePtr ((tptr + n) % 65536) ∈
         (s.send bufLen ⟨.ok fsr, .ok tptr, xfS, pwS, cmS⟩).2 ∧
       XferEvent.command .Send ∈
         (s.send bufLen ⟨.ok fsr, .ok tptr, xfS, pwS, cmS⟩).2) :=
  ⟨recv_fail_no_commit s outLen rsr rptr xfR pwR cmR,
   recv_writePtr_commit s outLen rsr rptr xfR pwR cmR,
   recv_ok_commit s outLen rsr rptr xfR pwR cmR,
   send_fail_no_commit s bufLen fsr tptr xfS pwS cmS,
   send_writePtr_commit s bufLen fsr tptr xfS pwS cmS,
   send_ok_commit s bufLen fsr tptr xfS pwS cmS⟩

/-- C5 witness: with a failing second sub-transfer (a lease gone at
position 2), `recv` returns an error and its trace holds no pointer write
(e.g. not `writePtr 11`) and no command; with everything succeeding,
`send` advances the pointer by the transferred length mod 2^16
(65534 + 3 wraps to 1) and issues `Send`. -/
theorem c5_commit_after_move_witness :
    (∃ e, (Socket.recv ⟨0, 0, 8, 100, 8⟩ 16
        ⟨.ok 5, .ok 6, fun a _ _ => if a = 100 then some .fail else none,
         none, none⟩).1 = .error e) ∧
    (XferEvent.writePtr 11 ∉ (Socket.recv ⟨0, 0, 8, 100, 8⟩ 16
        ⟨.ok 5, .ok 6, fun a _ _ => if a = 100 then some .fail else none,
         none, none⟩).2) ∧
    (XferEvent.command .Recv ∉ (Socket.recv ⟨0, 0, 8, 100, 8⟩ 16
        ⟨.ok 5, .ok 6, fun a _ _ => if a = 100 then some .fail else none,
         none, none⟩).2) ∧
    (XferEvent.writePtr ((65534 + 3) % 65536) ∈
       (Socket.send ⟨0, 200, 8, 0, 8⟩ 3
         ⟨.ok 5, .ok 65534, fun _ _ _ => none, none, none⟩).2 ∧
     XferEvent.command .Send ∈
       (Socket.send ⟨0, 200, 8, 0, 8⟩ 3
         ⟨.ok 5, .ok 65534, fun _ _ _ => none, none, none⟩).2) := by
  have h := c5_commit_after_move ⟨0, 0, 8, 100, 8⟩ 16 3 5 5 6 65534
      (fun a _ _ => if a = 100 then some .fail else none) (fun _ _ _ => none)
      none none none none
  have hs := c5_commit_after_move ⟨0, 200, 8, 0, 8⟩ 16 3 5 5 6 65534
      (fun a _ _ => if a = 100 then some .fail else none) (fun _ _ _ => none)
      none none none none
  have hfail := h.1 ⟨100, 3, 2, by decide, by decide⟩
  exact ⟨hfail.1, hfail.2.1 11, hfail.2.2 .Recv,
    hs.2.2.2.2.2 3 rfl (by decide)⟩

end W5100Model
